import Mathlib

/-!
Verification of the XRD_Scorer signal-processing core.

A shallow embedding of the core pipeline of the XRD_Scorer repository
(`src/core/kalpha_stripping.py`, `src/core/background_subtraction.py`,
`src/core/peak_detection.py`, `src/core/file_parser.py`) together with
theorems settling the specification claims.

Modelling conventions:

* `numpy` float64 arrays are modelled as `List ℚ` with exact rational
  arithmetic; elementwise numpy operations become `List.zipWith` / `List.map`.
* Transcendental or least-squares library primitives that the repository
  calls but does not implement (`np.tan`/`np.arctan` composition inside the
  Rachinger shift, `np.polyfit`, `scipy.ndimage.grey_opening`,
  `scipy.ndimage.gaussian_filter1d`, the peak-index search of
  `scipy.signal.find_peaks`, `scipy.signal.savgol_filter`, Python `float()`
  literal parsing) are abstracted as explicit function parameters; every
  theorem quantifies over them, so each proved statement holds in particular
  for the real library functions.  All repository-authored control flow and
  arithmetic is embedded concretely.
* Python exceptions and `raise` statements are modelled with
  `Except String`.
-/

/-- Binary maximum on ℚ, written with an explicit `if` so that it evaluates
inside `decide`.  Agrees with `max`. -/
def qmax (a b : ℚ) : ℚ := if a ≤ b then b else a

/-- Binary minimum on ℚ, written with an explicit `if` so that it evaluates
inside `decide`.  Agrees with `min`. -/
def qmin (a b : ℚ) : ℚ := if a ≤ b then a else b

theorem qmax_eq_max (a b : ℚ) : qmax a b = max a b := by
  unfold qmax
  rcases le_total a b with h | h
  · rw [if_pos h, max_eq_right h]
  · rcases eq_or_lt_of_le h with rfl | hlt
    · simp
    · rw [if_neg (not_le.mpr hlt), max_eq_left h]

theorem qmin_eq_min (a b : ℚ) : qmin a b = min a b := by
  unfold qmin
  rcases le_total a b with h | h
  · rw [if_pos h, min_eq_left h]
  · rcases eq_or_lt_of_le h with rfl | hlt
    · simp
    · rw [if_neg (not_le.mpr hlt), min_eq_right h]

/-- Elementwise subtraction `a - b` of two equal-length numpy arrays. -/
def arrSub (a b : List ℚ) : List ℚ := List.zipWith (fun x y => x - y) a b

/-- Embeds `np.max` over a 1-D array (the repository only applies it to nonempty
arrays; the empty case, on which numpy raises, is given the junk value 0). -/
def npMax : List ℚ → ℚ
  | [] => 0
  | x :: xs => xs.foldl qmax x

/-- Embeds `np.min` over a 1-D array (junk value 0 on the empty array, where numpy
raises). -/
def npMin : List ℚ → ℚ
  | [] => 0
  | x :: xs => xs.foldl qmin x

/-- Python `int(...)` applied to a float: truncation toward zero. -/
def pyInt (q : ℚ) : ℤ := if 0 ≤ q then q.floor else -((-q).floor)

section KalphaStripping

-- External primitive: the angular-shift map of the Rachinger correction.
-- `shift wr t` stands for `2*rad2deg(arctan(tan(deg2rad(t/2))*(wr - 1)))`
-- (kalpha_stripping.py lines 40-41), the only transcendental computation of
-- the module.  Every theorem below quantifies over it.
variable (shift : ℚ → ℚ → ℚ)

/-- Embeds `scipy.interpolate.interp1d(x, y, kind=linear, bounds_error=False,
fill_value=0.0)` evaluated at one point, over the paired samples:
0 outside the sample range, linear interpolation between neighbours inside. -/
def interpLinear : List (ℚ × ℚ) → ℚ → ℚ
  | [], _ => 0
  | [(x0, y0)], x => if x = x0 then y0 else 0
  | (x0, y0) :: (x1, y1) :: rest, x =>
    if x < x0 then 0
    else if x ≤ x1 then
      if x1 = x0 then y0 else y0 + (y1 - y0) * (x - x0) / (x1 - x0)
    else interpLinear ((x1, y1) :: rest) x

/-- The Kα2 intensity computed by `rachinger_correction` (kalpha_stripping.py
lines 43-52): the linear interpolant of the spectrum evaluated at the shifted
positions `two_theta - delta_two_theta`, scaled by `intensity_ratio`. -/
def rachingerKalpha2 (two_theta intensity : List ℚ)
    ( wavelength_ratio intensity_ratio : ℚ) : List ℚ :=
  let delta_two_theta := two_theta.map (shift wavelength_ratio)
  let two_theta_kalpha2 := List.zipWith (fun t d => t - d) two_theta delta_two_theta
  two_theta_kalpha2.map
    (fun x => interpLinear (two_theta.zip intensity) x * intensity_ratio)

/-- Embeds `rachinger_correction` (kalpha_stripping.py lines 13-60): subtract the Kα2
estimate from the original and clamp at 0 (`np.maximum(..., 0)`, line 58).
Returns `(kalpha1_intensity, kalpha2_intensity)`. -/
def rachinger_correction (two_theta intensity : List ℚ)
    ( wavelength_ratio intensity_ratio : ℚ) : List ℚ × List ℚ :=
  let kalpha2_intensity :=
    rachingerKalpha2 shift two_theta intensity wavelength_ratio intensity_ratio
  let kalpha1_intensity :=
    List.zipWith (fun a b => qmax (a - b) 0) intensity kalpha2_intensity
  (kalpha1_intensity, kalpha2_intensity)

/-- The `for i in range(iterations)` loop of `iterative_rachinger_correction`
(lines 85-90): feed the Kα1 estimate of each round back in as the working
intensity. -/
def rachingerIterLoop (two_theta : List ℚ) ( wavelength_ratio intensity_ratio : ℚ) :
    ℕ → List ℚ → List ℚ
  | 0, current => current
  | n + 1, current =>
    rachingerIterLoop two_theta wavelength_ratio intensity_ratio n
      (rachinger_correction shift two_theta current wavelength_ratio intensity_ratio).1

/-- Embeds `iterative_rachinger_correction` (kalpha_stripping.py lines 63-98): run
the loop, then recompute the returned pair once more from the original
untouched `intensity` (lines 92-96). -/
def iterative_rachinger_correction (two_theta intensity : List ℚ)
    ( wavelength_ratio intensity_ratio : ℚ) (iterations : ℕ) : List ℚ × List ℚ :=
  let _current_intensity :=
    rachingerIterLoop shift two_theta wavelength_ratio intensity_ratio
      iterations intensity
  let kalpha_final :=
    rachinger_correction shift two_theta intensity wavelength_ratio intensity_ratio
  kalpha_final

end KalphaStripping

/-- C1: the iterative Rachinger correction discards the iterated intermediate
and returns exactly the pair recomputed by a single `rachinger_correction`
from the original untouched spectrum, for every spectrum, every parameter
choice and every iteration count. -/
theorem c1_iterative_rachinger_returns_original_pair
    (shift : ℚ → ℚ → ℚ) (two_theta intensity : List ℚ)
    ( wavelength_ratio intensity_ratio : ℚ) (iterations : ℕ) :
    iterative_rachinger_correction shift two_theta intensity
        wavelength_ratio intensity_ratio iterations =
      rachinger_correction shift two_theta intensity
        wavelength_ratio intensity_ratio := rfl

/-- With `intensity_ratio = 0` the Kα2 estimate is identically zero. -/
theorem rachinger_kalpha2_zero (shift : ℚ → ℚ → ℚ)
    (two_theta intensity : List ℚ) ( wavelength_ratio : ℚ) :
    rachingerKalpha2 shift two_theta intensity wavelength_ratio 0 =
      List.replicate two_theta.length 0 := by
  unfold rachingerKalpha2
  simp [List.eq_replicate_iff, List.mem_map]

/-- Clamping against an all-zero Kα2 array is the pointwise clamp at 0. -/
theorem zipWith_replicate_zero_clamp (t : List ℚ) :
    List.zipWith (fun a b => qmax (a - b) 0) t (List.replicate t.length 0) =
      t.map (fun a => qmax a 0) := by
  induction t with
  | nil => rfl
  | cons a t ih => simp [List.replicate_succ, ih]

/-- With `intensity_ratio = 0` the Kα1 estimate is the pointwise clamp
`max(intensity, 0)` of the input. -/
theorem rachinger_kalpha1_clamp (shift : ℚ → ℚ → ℚ)
    (two_theta intensity : List ℚ) ( wavelength_ratio : ℚ)
    (hlen : two_theta.length = intensity.length) :
    (rachinger_correction shift two_theta intensity wavelength_ratio 0).1 =
      intensity.map (fun a => qmax a 0) := by
  show List.zipWith (fun a b => qmax (a - b) 0) intensity
      (rachingerKalpha2 shift two_theta intensity wavelength_ratio 0) = _
  rw [rachinger_kalpha2_zero, hlen]
  exact zipWith_replicate_zero_clamp intensity

/-- C6 (corrected) counterexample: the claim "kalpha1 equals the input
intensity for every input spectrum" fails on a spectrum with negative
intensities (which arise legitimately after background subtraction), because
`rachinger_correction` clamps Kα1 at zero (kalpha_stripping.py line 58).
The Kα2 term is multiplied by `intensity_ratio = 0`, so the instantiation of
the abstract shift map is irrelevant here. -/
theorem c6_counterexample :
    (rachinger_correction (fun _ _ => 0) [1, 2] [-1, -1] (401 / 400) 0).1 ≠
      [-1, -1] := by with_unfolding_all decide

/-- C6 (amended): with `intensity_ratio = 0`, `kalpha2` is identically zero
and `kalpha1 = max(intensity, 0)` pointwise, hence `kalpha1 = intensity`
whenever the input intensities are nonnegative — for any wavelength ratio and
any shift map. -/
theorem c6_rachinger_identity_on_nonneg (shift : ℚ → ℚ → ℚ)
    (two_theta intensity : List ℚ) ( wavelength_ratio : ℚ)
    (hlen : two_theta.length = intensity.length)
    (hpos : List.Forall (fun a => 0 ≤ a) intensity) :
    (rachinger_correction shift two_theta intensity wavelength_ratio 0).1 =
        intensity ∧
      (rachinger_correction shift two_theta intensity wavelength_ratio 0).2 =
        List.replicate two_theta.length 0 := by
  refine ⟨?_, rachinger_kalpha2_zero shift two_theta intensity wavelength_ratio⟩
  rw [rachinger_kalpha1_clamp shift two_theta intensity wavelength_ratio hlen]
  clear hlen
  induction intensity with
  | nil => rfl
  | cons a t ih =>
    rw [List.forall_cons] at hpos
    have ha : qmax a 0 = a := by rw [qmax_eq_max, max_eq_left hpos.1]
    simp only [List.map_cons, ha, List.cons.injEq, true_and]
    exact ih hpos.2

/-- Witness for C6: a concrete nonnegative spectrum on which the amended
identity evaluates as stated. -/
theorem c6_witness :
    (rachinger_correction (fun _ _ => 0) [10, 20, 30] [3, 5, 7] (401 / 400) 0).1 =
        [3, 5, 7] ∧
      (rachinger_correction (fun _ _ => 0) [10, 20, 30] [3, 5, 7] (401 / 400) 0).2 =
        List.replicate 3 0 :=
  c6_rachinger_identity_on_nonneg (fun _ _ => 0) [10, 20, 30] [3, 5, 7]
    (401 / 400) (by with_unfolding_all decide) (by with_unfolding_all decide)

section BackgroundSubtraction

-- External least-squares primitive: `np.polyfit(x, y, deg)` returning the
-- coefficient vector (highest power first).  All theorems quantify over it.
variable (polyfit : List ℚ → List ℚ → ℕ → List ℚ)
-- External morphology primitives: `scipy.ndimage.grey_opening` with a flat
-- structuring element of the given size, and
-- `scipy.ndimage.gaussian_filter1d` with the given sigma.
variable (greyOpening : List ℚ → ℕ → List ℚ)
variable (gaussianFilter1d : List ℚ → ℚ → List ℚ)

/-- Embeds `np.polyval(coeffs, xs)`: Horner evaluation, highest power first. -/
def polyval (coeffs : List ℚ) (xs : List ℚ) : List ℚ :=
  xs.map (fun x => coeffs.foldl (fun acc c => acc * x + c) 0)

/-- Embeds `polynomial_background` (background_subtraction.py lines 18-41). -/
def polynomial_background (two_theta intensity : List ℚ) (degree : ℕ) :
    List ℚ × List ℚ :=
  let background := polyval (polyfit two_theta intensity degree) two_theta
  (background, arrSub intensity background)

/-- Boolean-mask indexing `xs[mask]` of numpy. -/
def maskSelect (xs : List ℚ) (mask : List Bool) : List ℚ :=
  (xs.zip mask).filterMap (fun p => if p.2 then some p.1 else none)

/-- The fitting loop of `iterative_polynomial_background` (lines 67-76):
refit on the masked points each round and, on every round but the last,
exclude points whose residual exceeds `threshold * max(intensity)`. -/
def iterPolyLoop (two_theta intensity : List ℚ) (degree : ℕ) (threshold : ℚ) :
    ℕ → List Bool → List ℚ → List ℚ
  | 0, _mask, background => background
  | k + 1, mask, _background =>
    let background :=
      polyval (polyfit (maskSelect two_theta mask) (maskSelect intensity mask) degree)
        two_theta
    let mask2 :=
      if k = 0 then mask
      else List.zipWith (fun a b => decide (a - b < threshold * npMax intensity))
        intensity background
    iterPolyLoop two_theta intensity degree threshold k mask2 background

/-- Embeds `iterative_polynomial_background` (background_subtraction.py lines 44-80,
Sonneveld-Visser).  The mask starts all-true and the background all-zero. -/
def iterative_polynomial_background (two_theta intensity : List ℚ)
    (degree iterations : ℕ) (threshold : ℚ) : List ℚ × List ℚ :=
  let background :=
    iterPolyLoop polyfit two_theta intensity degree threshold iterations
      (List.replicate intensity.length true) (List.replicate intensity.length 0)
  (background, arrSub intensity background)

/-- Embeds `rolling_ball_background` (background_subtraction.py lines 83-116):
morphological opening followed by Gaussian smoothing with
`sigma = ball_radius / 10`.  The auto radius `max(50, int(len * 0.05))` is
modelled as `max 50 (len * 5 / 100)`. -/
def rolling_ball_background (two_theta intensity : List ℚ)
    (ball_radius : Option ℕ) : List ℚ × List ℚ :=
  let r := ball_radius.getD (max 50 (intensity.length * 5 / 100))
  let background := gaussianFilter1d (greyOpening intensity r) ((r : ℚ) / 10)
  (background, arrSub intensity background)

/-- Embeds `tophat_background` (background_subtraction.py lines 119-150): the
background is the morphological opening itself. -/
def tophat_background (two_theta intensity : List ℚ)
    (structure_size : Option ℕ) : List ℚ × List ℚ :=
  let s := structure_size.getD (max 50 (intensity.length * 5 / 100))
  let background := greyOpening intensity s
  (background, arrSub intensity background)

/-- One in-place update `background[j] = min(background[j],
np.min(background[start:end]))` of the SNIP clipping pass
(background_subtraction.py lines 181-184).  Later indices of the same pass
see the already-updated earlier entries. -/
def snipStep (w : ℕ) (background : List ℚ) (j : ℕ) : List ℚ :=
  let start := j - w / 2
  let stop := min (j + w / 2 + 1) background.length
  let windowVals := (background.drop start).take (stop - start)
  background.set j (qmin (background.getD j 0) (npMin windowVals))

/-- One full clipping pass over all indices, in order. -/
def snipPass (w : ℕ) (background : List ℚ) : List ℚ :=
  (List.range background.length).foldl (snipStep w) background

/-- The iteration loop of `snip_background` (lines 173-184): the window
shrinks as `len * reduction_factor ^ i`, clipped below by 1, and the loop
breaks once the window drops under 3. -/
def snipLoop (n : ℕ) (reduction_factor : ℚ) : ℕ → ℕ → List ℚ → List ℚ
  | 0, _i, background => background
  | k + 1, i, background =>
    let window : ℤ := max 1 (pyInt ((n : ℚ) * reduction_factor ^ i))
    if window < 3 then background
    else snipLoop n reduction_factor k (i + 1) (snipPass window.toNat background)

/-- Embeds `snip_background` (background_subtraction.py lines 153-188): iterative
min-clipping starting from a copy of the intensity. -/
def snip_background (two_theta intensity : List ℚ) (iterations : ℕ)
    (reduction_factor : ℚ) : List ℚ × List ℚ :=
  let background := snipLoop intensity.length reduction_factor iterations 0 intensity
  (background, arrSub intensity background)

/-- The valid method names of `subtract_background`, in dict order
(background_subtraction.py lines 206-212). -/
def bgValidMethods : List String :=
  ["polynomial", "iterative_polynomial", "rolling_ball", "tophat", "snip"]

/-- The `ValueError` message raised on an unknown method name, listing every
valid name (modelled up to the Python list punctuation). -/
def unknownMethodMsg (method : String) (valid : List String) : String :=
  "Unknown method: " ++ method ++ ". Available: " ++ String.intercalate ", " valid

/-- Optional keyword arguments accepted by the background methods.  A `none`
field stands for an omitted Python kwarg, so each method falls back to its
own declared default. -/
structure BgKwargs where
  degree : Option ℕ := none
  iterations : Option ℕ := none
  threshold : Option ℚ := none
  ball_radius : Option ℕ := none
  structure_size : Option ℕ := none
  reduction_factor : Option ℚ := none

/-- Embeds `subtract_background` (background_subtraction.py lines 191-217): dispatch
by method name; unknown names raise `ValueError` listing the valid names. -/
def subtract_background (two_theta intensity : List ℚ) (method : String)
    (k : BgKwargs) : Except String (List ℚ × List ℚ) :=
  if method = "polynomial" then
    .ok (polynomial_background polyfit two_theta intensity (k.degree.getD 6))
  else if method = "iterative_polynomial" then
    .ok (iterative_polynomial_background polyfit two_theta intensity
      (k.degree.getD 6) (k.iterations.getD 10) (k.threshold.getD (1 / 10)))
  else if method = "rolling_ball" then
    .ok (rolling_ball_background greyOpening gaussianFilter1d two_theta intensity
      k.ball_radius)
  else if method = "tophat" then
    .ok (tophat_background greyOpening two_theta intensity k.structure_size)
  else if method = "snip" then
    .ok (snip_background two_theta intensity (k.iterations.getD 100)
      (k.reduction_factor.getD (1 / 2)))
  else .error (unknownMethodMsg method bgValidMethods)

end BackgroundSubtraction

/-- C3: all five background-estimation methods return a pair whose second
component is exactly the elementwise difference `intensity - background` of
the input intensity and the first component — for every spectrum, every
parameter choice and every behaviour of the external fitting/morphology
primitives. -/
theorem c3_background_corrected_eq_intensity_sub_background
    (polyfit : List ℚ → List ℚ → ℕ → List ℚ)
    (greyOpening : List ℚ → ℕ → List ℚ)
    (gaussianFilter1d : List ℚ → ℚ → List ℚ)
    (two_theta intensity : List ℚ) (degree iterations : ℕ)
    (threshold reduction_factor : ℚ) (ball_radius structure_size : Option ℕ) :
    (polynomial_background polyfit two_theta intensity degree).2 =
        arrSub intensity (polynomial_background polyfit two_theta intensity degree).1 ∧
      (iterative_polynomial_background polyfit two_theta intensity degree
            iterations threshold).2 =
        arrSub intensity
          (iterative_polynomial_background polyfit two_theta intensity degree
            iterations threshold).1 ∧
      (rolling_ball_background greyOpening gaussianFilter1d two_theta intensity
            ball_radius).2 =
        arrSub intensity
          (rolling_ball_background greyOpening gaussianFilter1d two_theta intensity
            ball_radius).1 ∧
      (tophat_background greyOpening two_theta intensity structure_size).2 =
        arrSub intensity
          (tophat_background greyOpening two_theta intensity structure_size).1 ∧
      (snip_background two_theta intensity iterations reduction_factor).2 =
        arrSub intensity
          (snip_background two_theta intensity iterations reduction_factor).1 :=
  ⟨rfl, rfl, rfl, rfl, rfl⟩

theorem qmin_le_left (a b : ℚ) : qmin a b ≤ a := by
  rw [qmin_eq_min]; exact min_le_left a b

/-- Pointwise `≤` is reflexive on rational arrays. -/
theorem forall₂_le_refl (l : List ℚ) : List.Forall₂ (fun a b => a ≤ b) l l :=
  List.forall₂_same.mpr (fun x _ => le_refl x)

/-- Pointwise `≤` is transitive on rational arrays. -/
theorem forall₂_le_trans {a b c : List ℚ}
    (h1 : List.Forall₂ (fun x y => x ≤ y) a b)
    (h2 : List.Forall₂ (fun x y => x ≤ y) b c) :
    List.Forall₂ (fun x y => x ≤ y) a c := by
  induction h1 generalizing c with
  | nil => cases h2; exact List.Forall₂.nil
  | cons hxy _ ih =>
    cases h2 with
    | cons hyz htl => exact List.Forall₂.cons (le_trans hxy hyz) (ih htl)

/-- Overwriting one entry with a smaller value only decreases the array. -/
theorem set_forall₂_le :
    ∀ (l : List ℚ) (j : ℕ) (v : ℚ), v ≤ l.getD j 0 →
      List.Forall₂ (fun a b => a ≤ b) (l.set j v) l
  | [], _, _, _ => List.Forall₂.nil
  | _ :: t, 0, _, h => List.Forall₂.cons h (forall₂_le_refl t)
  | x :: t, j + 1, v, h => List.Forall₂.cons (le_refl x) (set_forall₂_le t j v h)

/-- One SNIP update never increases any entry. -/
theorem snipStep_forall₂_le (w : ℕ) (background : List ℚ) (j : ℕ) :
    List.Forall₂ (fun a b => a ≤ b) (snipStep w background j) background :=
  set_forall₂_le background j _ (qmin_le_left _ _)

/-- A whole SNIP clipping pass never increases any entry. -/
theorem snipPass_forall₂_le (w : ℕ) (background : List ℚ) :
    List.Forall₂ (fun a b => a ≤ b) (snipPass w background) background := by
  unfold snipPass
  generalize List.range background.length = js
  induction js generalizing background with
  | nil => exact forall₂_le_refl background
  | cons j js ih =>
    exact forall₂_le_trans (ih (snipStep w background j))
      (snipStep_forall₂_le w background j)

/-- The whole SNIP iteration never increases any entry. -/
theorem snipLoop_forall₂_le (n : ℕ) (reduction_factor : ℚ) :
    ∀ (fuel i : ℕ) (background : List ℚ),
      List.Forall₂ (fun a b => a ≤ b)
        (snipLoop n reduction_factor fuel i background) background
  | 0, _, background => forall₂_le_refl background
  | fuel + 1, i, background => by
    rw [snipLoop]
    split
    · exact forall₂_le_refl background
    · exact forall₂_le_trans
        (snipLoop_forall₂_le n reduction_factor fuel (i + 1) _)
        (snipPass_forall₂_le _ background)

/-- Subtracting a pointwise-smaller array leaves nonnegative entries. -/
theorem arrSub_nonneg {a b : List ℚ}
    (h : List.Forall₂ (fun x y => x ≤ y) b a) :
    List.Forall (fun x => 0 ≤ x) (arrSub a b) := by
  induction h with
  | nil => exact trivial
  | cons hxy htl ih =>
    rw [arrSub, List.zipWith_cons_cons, ← arrSub, List.forall_cons]
    exact ⟨by linarith, ih⟩

/-- C10: the SNIP background starts as a copy of the intensity and is only
ever overwritten with minima involving itself, so the returned background is
pointwise `≤` the input intensity and the returned corrected array is
pointwise nonnegative, for every spectrum and every parameter choice. -/
theorem c10_snip_background_le_intensity
    (two_theta intensity : List ℚ) (iterations : ℕ) (reduction_factor : ℚ) :
    List.Forall₂ (fun a b => a ≤ b)
        (snip_background two_theta intensity iterations reduction_factor).1
        intensity ∧
      List.Forall (fun x => 0 ≤ x)
        (snip_background two_theta intensity iterations reduction_factor).2 := by
  have hle := snipLoop_forall₂_le intensity.length reduction_factor iterations 0
    intensity
  exact ⟨hle, arrSub_nonneg hle⟩

/-- Python `abs()` on a float, written with an explicit `if` so that it
evaluates inside `decide`.  Agrees with `|.|`. -/
def pyAbs (q : ℚ) : ℚ := if q < 0 then -q else q

theorem pyAbs_eq_abs (q : ℚ) : pyAbs q = |q| := by
  unfold pyAbs
  rcases lt_or_le q 0 with h | h
  · rw [if_pos h, abs_of_neg h]
  · rw [if_neg (not_lt.mpr h), abs_of_nonneg h]

/-- Embeds `DetectedPeak` (peak_detection.py lines 17-32). -/
structure DetectedPeak where
  two_theta : ℚ
  intensity : ℚ
  index : ℕ
  width : Option ℚ := none
  prominence : Option ℚ := none
  fwhm : Option ℚ := none
deriving DecidableEq

section PeakDetection

-- External primitive: the index search of `scipy.signal.find_peaks`
-- (arguments: intensity, prominence, height, distance, width), together with
-- the prominence and width values it computes for the returned indices.
-- All theorems quantify over these.
variable (fpIndices : List ℚ → Option ℚ → Option ℚ → Option ℕ → Option ℕ → List ℕ)
variable (fpProminences : List ℚ → List ℕ → List ℚ)
variable (fpWidths : List ℚ → List ℕ → List ℚ)
-- External primitive: `scipy.signal.savgol_filter(intensity, window, order)`.
variable (savgolFilter : List ℚ → ℕ → ℕ → List ℚ)

/-- The result of one `scipy.signal.find_peaks` call: the peak indices plus
the properties dict.  Per the scipy contract, the `prominences` key is present
only when a `prominence` (or `width`) argument was supplied, and the `widths`
key only when a `width` argument was supplied; an absent key is `none`. -/
structure FindPeaksResult where
  indices : List ℕ
  prominences : Option (List ℚ)
  widths : Option (List ℚ)

/-- Embeds `scipy.signal.find_peaks(intensity, prominence=, height=, distance=,
width=)` with the documented conditional presence of the properties keys. -/
def find_peaks (intensity : List ℚ) (prominence height : Option ℚ)
    (distance width : Option ℕ) : FindPeaksResult :=
  let idxs := fpIndices intensity prominence height distance width
  { indices := idxs
    prominences :=
      if prominence.isSome || width.isSome then some (fpProminences intensity idxs)
      else none
    widths := if width.isSome then some (fpWidths intensity idxs) else none }

/-- Embeds `detect_peaks_threshold` (peak_detection.py lines 35-67): a strict local
maximum above the threshold within a `min_distance` window. -/
def detect_peaks_threshold (two_theta intensity : List ℚ)
    (threshold : Option ℚ) (min_distance : ℕ) : List DetectedPeak :=
  let thr := threshold.getD (npMax intensity * (1 / 10))
  ((List.range (intensity.length - min_distance)).drop min_distance).filterMap
    (fun i =>
      if thr < intensity.getD i 0 then
        let isPeak :=
          ((List.range (min (i + min_distance + 1) intensity.length)).drop
            (i - min_distance)).all
            (fun j => j == i || decide (intensity.getD j 0 < intensity.getD i 0))
        if isPeak then
          some { two_theta := two_theta.getD i 0, intensity := intensity.getD i 0,
                 index := i }
        else none
      else none)

/-- The left half-max scan of `calculate_fwhm` (lines 168-170):
`while left_idx > 0 and intensity[left_idx] > half_max: left_idx -= 1`. -/
def fwhmScanLeft (intensity : List ℚ) (half_max : ℚ) : ℕ → ℕ
  | 0 => 0
  | k + 1 =>
    if half_max < intensity.getD (k + 1) 0 then fwhmScanLeft intensity half_max k
    else k + 1

/-- The right half-max scan of `calculate_fwhm` (lines 185-187):
`while right_idx < len(intensity) - 1 and intensity[right_idx] > half_max`. -/
def fwhmScanRight (intensity : List ℚ) (half_max : ℚ) (j : ℕ) : ℕ :=
  if h : j < intensity.length - 1 then
    if half_max < intensity.getD j 0 then fwhmScanRight intensity half_max (j + 1)
    else j
  else j
termination_by intensity.length - j
decreasing_by omega

/-- Embeds `calculate_fwhm` (peak_detection.py lines 146-201): locate the half-max
crossings on both sides of the peak and linearly interpolate; `None` on a
degenerate peak. -/
def calculate_fwhm (two_theta intensity : List ℚ) (peak_index : ℕ) : Option ℚ :=
  if intensity.length ≤ peak_index then none
  else
    let peak_intensity := intensity.getD peak_index 0
    if peak_intensity ≤ 0 then none
    else
      let half_max := peak_intensity / 2
      let left_idx := fwhmScanLeft intensity half_max peak_index
      let left_2theta :=
        if left_idx < peak_index ∧ left_idx + 1 < intensity.length then
          let y1 := intensity.getD left_idx 0
          let y2 := intensity.getD (left_idx + 1) 0
          if 1 / 10 ^ 10 < pyAbs (y2 - y1) then
            let x1 := two_theta.getD left_idx 0
            let x2 := two_theta.getD (left_idx + 1) 0
            x1 + (half_max - y1) * (x2 - x1) / (y2 - y1)
          else two_theta.getD left_idx 0
        else two_theta.getD left_idx 0
      let right_idx := fwhmScanRight intensity half_max peak_index
      let right_2theta :=
        if peak_index < right_idx ∧ 0 < right_idx then
          let y1 := intensity.getD (right_idx - 1) 0
          let y2 := intensity.getD right_idx 0
          if 1 / 10 ^ 10 < pyAbs (y2 - y1) then
            let x1 := two_theta.getD (right_idx - 1) 0
            let x2 := two_theta.getD right_idx 0
            x1 + (half_max - y1) * (x2 - x1) / (y2 - y1)
          else two_theta.getD right_idx 0
        else
          if right_idx < two_theta.length then two_theta.getD right_idx 0
          else two_theta.getD (two_theta.length - 1) 0
      let fwhm := right_2theta - left_2theta
      if 0 < fwhm then some fwhm else none

/-- The auto-computed `distance` argument (peak_detection.py lines 94-100 and
221-226): `max(1, int(0.1 / spacing))` when at least two samples exist, else
5.  (Python raises `ZeroDivisionError` on zero spacing; ℚ division by zero
yields the junk window 1 instead.) -/
def defaultDistance (two_theta : List ℚ) : ℕ :=
  if 1 < two_theta.length then
    let spacing := two_theta.getD 1 0 - two_theta.getD 0 0
    (max 1 (pyInt ((1 / 10) / spacing))).toNat
  else 5

/-- Embeds `detect_peaks_prominence` (peak_detection.py lines 70-143): the prominence
floor defaults to 5% of the max intensity, the distance to the auto value;
FWHM comes from the scipy width when available and positive spacing, otherwise
from `calculate_fwhm`. -/
def detect_peaks_prominence (two_theta intensity : List ℚ)
    (prominence height : Option ℚ) (distance width : Option ℕ) :
    List DetectedPeak :=
  let prom := prominence.getD (npMax intensity * (5 / 100))
  let dist := distance.getD (defaultDistance two_theta)
  let res := find_peaks fpIndices fpProminences fpWidths intensity (some prom)
    height (some dist) width
  let angular_spacing :=
    if 1 < two_theta.length then two_theta.getD 1 0 - two_theta.getD 0 0 else 0
  res.indices.enum.map (fun p =>
    let i := p.1
    let idx := p.2
    let width_points : Option ℚ :=
      match res.widths with
      | some ws => if i < ws.length then some (ws.getD i 0) else none
      | none => none
    let fwhm0 : Option ℚ :=
      match width_points with
      | some wp => if 0 < angular_spacing then some (wp * angular_spacing) else none
      | none => none
    let fwhm : Option ℚ :=
      match fwhm0 with
      | some f => some f
      | none => calculate_fwhm two_theta intensity idx
    { two_theta := two_theta.getD idx 0
      intensity := intensity.getD idx 0
      index := idx
      width := width_points
      prominence :=
        match res.prominences with
        | some ps => if i < ps.length then some (ps.getD i 0) else none
        | none => none
      fwhm := fwhm })

/-- Embeds `get_filtered_peaks` (peak_detection.py lines 204-258): rerun `find_peaks`
with the distance constraint only, subtract the accepted set and keep
candidates whose prominence is at least 30% of the threshold — but the
prominence values are read from the properties of the distance-only call
(lines 229-232, 245), which supplies no prominence argument. -/
def get_filtered_peaks (two_theta intensity : List ℚ)
    (prominence_threshold : ℚ) (distance : Option ℕ) :
    List (ℚ × ℚ × ℚ × ℕ) :=
  let dist := distance.getD (defaultDistance two_theta)
  let allRes := find_peaks fpIndices fpProminences fpWidths intensity none none
    (some dist) none
  let detRes := find_peaks fpIndices fpProminences fpWidths intensity
    (some prominence_threshold) none (some dist) none
  let detectedIdx := detRes.indices
  match allRes.prominences with
  | none => []
  | some proms =>
    allRes.indices.enum.filterMap (fun p =>
      let i := p.1
      let idx := p.2
      if idx ∈ detectedIdx then none
      else if prominence_threshold * (3 / 10) ≤ proms.getD i 0 then
        some (two_theta.getD idx 0, intensity.getD idx 0, proms.getD i 0, idx)
      else none)

/-- Embeds `detect_peaks_derivative` (peak_detection.py lines 261-291): sign change
of the first difference, above the threshold, at least `min_distance` past the
previously accepted peak. -/
def detect_peaks_derivative (two_theta intensity : List ℚ)
    (threshold : Option ℚ) (min_distance : ℕ) : List DetectedPeak :=
  let thr := threshold.getD (npMax intensity * (1 / 10))
  let dy := List.zipWith (fun a b => a - b) (intensity.drop 1) intensity
  ((List.range dy.length).drop 1).foldl
    (fun peaks i =>
      let distOk :=
        match peaks.getLast? with
        | none => true
        | some p => decide (min_distance ≤ i - p.index)
      if decide (0 < dy.getD (i - 1) 0) && decide (dy.getD i 0 < 0) &&
          decide (thr < intensity.getD i 0) && distOk then
        peaks ++ [{ two_theta := two_theta.getD i 0,
                    intensity := intensity.getD i 0, index := i }]
      else peaks)
    []

/-- Embeds `detect_peaks_savgol` (peak_detection.py lines 294-326): force the window
odd, clamp it to the data length and to at least 3, smooth, then run the
prominence detector on the smoothed series. -/
def detect_peaks_savgol (two_theta intensity : List ℚ)
    (window_length poly_order : ℕ) (prominence : Option ℚ)
    (distance : Option ℕ) : List DetectedPeak :=
  let wl := if window_length % 2 = 0 then window_length + 1 else window_length
  let wl :=
    if intensity.length < wl then
      (if intensity.length % 2 = 1 then intensity.length else intensity.length - 1)
    else wl
  let wl := if wl < 3 then 3 else wl
  let smoothed := savgolFilter intensity wl poly_order
  detect_peaks_prominence fpIndices fpProminences fpWidths two_theta smoothed
    prominence none distance none

/-- The valid method names of `detect_peaks`, in dict order
(peak_detection.py lines 343-348). -/
def peakValidMethods : List String :=
  ["prominence", "threshold", "derivative", "savgol"]

/-- Optional keyword arguments accepted by the peak-detection methods. -/
structure PeakKwargs where
  threshold : Option ℚ := none
  min_distance : Option ℕ := none
  prominence : Option ℚ := none
  height : Option ℚ := none
  distance : Option ℕ := none
  width : Option ℕ := none
  window_length : Option ℕ := none
  poly_order : Option ℕ := none

/-- Embeds `detect_peaks` (peak_detection.py lines 329-353): dispatch by method
name; unknown names raise `ValueError` listing the valid names. -/
def detect_peaks (two_theta intensity : List ℚ) (method : String)
    (k : PeakKwargs) : Except String (List DetectedPeak) :=
  if method = "prominence" then
    .ok (detect_peaks_prominence fpIndices fpProminences fpWidths two_theta
      intensity k.prominence k.height k.distance k.width)
  else if method = "threshold" then
    .ok (detect_peaks_threshold two_theta intensity k.threshold
      (k.min_distance.getD 5))
  else if method = "derivative" then
    .ok (detect_peaks_derivative two_theta intensity k.threshold
      (k.min_distance.getD 5))
  else if method = "savgol" then
    .ok (detect_peaks_savgol fpIndices fpProminences fpWidths savgolFilter
      two_theta intensity (k.window_length.getD 11) (k.poly_order.getD 3)
      k.prominence k.distance)
  else .error (unknownMethodMsg method peakValidMethods)

end PeakDetection

/-- C9 (code bug): `get_filtered_peaks` always returns the empty list, for
every input and every behaviour of the `find_peaks` primitives, because the
distance-only `find_peaks` call never carries a `prominences` properties key,
so the guard checking the properties dict for the prominences key (line 245) is always false.
This contradicts the docstring of the function itself ("Get peaks that were filtered
out due to low prominence") and the specified 30%-of-threshold diagnostic. -/
theorem c9_get_filtered_peaks_always_empty
    (fpIndices : List ℚ → Option ℚ → Option ℚ → Option ℕ → Option ℕ → List ℕ)
    (fpProminences fpWidths : List ℚ → List ℕ → List ℚ)
    (two_theta intensity : List ℚ) (prominence_threshold : ℚ)
    (distance : Option ℕ) :
    get_filtered_peaks fpIndices fpProminences fpWidths two_theta intensity
      prominence_threshold distance = [] := rfl

/-- The subset of `ReferencePattern` consumed by
`match_peaks_with_reference`: the peak angle array and peak intensity array,
each of which may be absent (`None`). -/
structure ReferencePattern where
  two_theta : Option (List ℚ)
  intensity : Option (List ℚ)

/-- Embeds `reference_pattern.intensity[i] if reference_pattern.intensity is not
None else 0` (peak_detection.py lines 397 and 409). -/
def refIntensityAt (ref : ReferencePattern) (i : ℕ) : ℚ :=
  match ref.intensity with
  | some ys => ys.getD i 0
  | none => 0

/-- The inner loop of `match_peaks_with_reference` (lines 387-397): scan all
reference peaks in order, skip the already-matched ones, and keep the closest
one strictly within the running best distance (initially the tolerance). -/
def bestMatchAux (dtt : ℚ) (used : List ℕ) :
    List (ℕ × ℚ) → ℚ → Option (ℕ × ℚ) → Option (ℕ × ℚ)
  | [], _, best => best
  | (i, rt) :: rest, best_distance, best =>
    if i ∈ used then bestMatchAux dtt used rest best_distance best
    else if pyAbs (dtt - rt) < best_distance then
      bestMatchAux dtt used rest (pyAbs (dtt - rt)) (some (i, rt))
    else bestMatchAux dtt used rest best_distance best

/-- The outer loop of `match_peaks_with_reference` (lines 386-401): greedy
per detected peak, in input order; a found match appends the pair and marks
the reference index unavailable. -/
def matchLoop (tolerance : ℚ) (refs : List ℚ) (refI : ℕ → ℚ) :
    List DetectedPeak → List (DetectedPeak × ℕ × ℚ × ℚ) → List ℕ →
    List (DetectedPeak × ℕ × ℚ × ℚ) × List ℕ
  | [], matched, used => (matched, used)
  | d :: rest, matched, used =>
    match bestMatchAux d.two_theta used refs.enum tolerance none with
    | none => matchLoop tolerance refs refI rest matched used
    | some (i, rt) =>
      matchLoop tolerance refs refI rest (matched ++ [(d, i, rt, refI i)])
        (used ++ [i])

/-- The dictionary returned by `match_peaks_with_reference`. -/
structure MatchResult where
  matched_peaks : List (DetectedPeak × ℕ × ℚ × ℚ)
  unmatched_detected : List DetectedPeak
  unmatched_reference : List (ℚ × ℚ)
  match_score : ℚ

/-- Embeds `match_peaks_with_reference` (peak_detection.py lines 356-421).  Matched
reference peaks are recorded as `(index, angle, intensity)`; the unmatched
reference indices are listed in ascending order.  Python compares detected
peaks by object identity in the `unmatched_detected` comprehension (line
405); the model uses structural equality, which coincides for any list of
pairwise-distinct peaks. -/
def match_peaks_with_reference (detected_peaks : List DetectedPeak)
    (reference_pattern : ReferencePattern) (tolerance : ℚ) : MatchResult :=
  match reference_pattern.two_theta with
  | none =>
    { matched_peaks := [], unmatched_detected := detected_peaks,
      unmatched_reference := [], match_score := 0 }
  | some refs =>
    let mu := matchLoop tolerance refs (refIntensityAt reference_pattern)
      detected_peaks [] []
    let matched := mu.1
    let used := mu.2
    let unmatched_detected :=
      detected_peaks.filter
        (fun p => !(matched.any (fun mp => decide (mp.1 = p))))
    let unmatched_reference :=
      ((List.range refs.length).filter (fun i => !(decide (i ∈ used)))).map
        (fun i => (refs.getD i 0, refIntensityAt reference_pattern i))
    let total := refs.length
    let score :=
      if 0 < total then (matched.length : ℚ) / (total : ℚ) * 100 else 0
    { matched_peaks := matched, unmatched_detected := unmatched_detected,
      unmatched_reference := unmatched_reference, match_score := score }

/-- C2: peak-to-reference matching is greedy per detected peak in input
order.  With a single reference peak `r` and two distinct detected peaks both
strictly within tolerance of it, input order `[A, B]` matches `A` and leaves
`B` unmatched, and input order `[B, A]` matches `B` and leaves `A` unmatched;
moreover each detected peak takes the closest not-yet-matched reference peak
within tolerance (third clause).  The `A ≠ B` hypothesis reflects the Python
identity comparison on line 405: two distinct peak objects never compare
equal there. -/
theorem c2_matching_greedy_in_input_order
    (A B : DetectedPeak) (r tolerance : ℚ) (ref : ReferencePattern)
    (href : ref.two_theta = some [r])
    (hA : pyAbs (A.two_theta - r) < tolerance)
    (hB : pyAbs (B.two_theta - r) < tolerance)
    (hAB : A ≠ B) :
    ((match_peaks_with_reference [A, B] ref tolerance).matched_peaks =
        [(A, 0, r, refIntensityAt ref 0)] ∧
      (match_peaks_with_reference [A, B] ref tolerance).unmatched_detected = [B]) ∧
    ((match_peaks_with_reference [B, A] ref tolerance).matched_peaks =
        [(B, 0, r, refIntensityAt ref 0)] ∧
      (match_peaks_with_reference [B, A] ref tolerance).unmatched_detected = [A]) ∧
    (∀ (d : DetectedPeak) (ref2 : ReferencePattern) (r0 r1 : ℚ),
      ref2.two_theta = some [r0, r1] →
      pyAbs (d.two_theta - r1) < pyAbs (d.two_theta - r0) →
      pyAbs (d.two_theta - r0) < tolerance →
      (match_peaks_with_reference [d] ref2 tolerance).matched_peaks =
        [(d, 1, r1, refIntensityAt ref2 1)]) := by
  have henum : ([r] : List ℚ).enum = [(0, r)] := rfl
  refine ⟨⟨?_, ?_⟩, ⟨?_, ?_⟩, ?_⟩
  · unfold match_peaks_with_reference
    rw [href]
    simp only [matchLoop, bestMatchAux, henum]
    simp [hA]
  · unfold match_peaks_with_reference
    rw [href]
    simp only [matchLoop, bestMatchAux, henum]
    simp [hA, hAB, List.filter]
  · unfold match_peaks_with_reference
    rw [href]
    simp only [matchLoop, bestMatchAux, henum]
    simp [hB]
  · unfold match_peaks_with_reference
    rw [href]
    simp only [matchLoop, bestMatchAux, henum]
    simp [hB, Ne.symm hAB, List.filter]
  · intro d ref2 r0 r1 h2 hcl h0
    have henum2 : ([r0, r1] : List ℚ).enum = [(0, r0), (1, r1)] := rfl
    unfold match_peaks_with_reference
    rw [h2]
    simp only [matchLoop, bestMatchAux, henum2]
    simp [h0, hcl]

/-- Witness for C2: the scenario given in the spec, a reference peak at 20.0° with
tolerance 0.2° and detected peaks at 19.9° and 20.1°, plus a
closest-available instance with two reference peaks. -/
theorem c2_witness :
    ((match_peaks_with_reference
        [⟨199 / 10, 50, 3, none, none, none⟩, ⟨201 / 10, 40, 7, none, none, none⟩]
        ⟨some [20], some [100]⟩ (1 / 5)).matched_peaks =
      [(⟨199 / 10, 50, 3, none, none, none⟩, 0, 20, 100)] ∧
    (match_peaks_with_reference
        [⟨199 / 10, 50, 3, none, none, none⟩, ⟨201 / 10, 40, 7, none, none, none⟩]
        ⟨some [20], some [100]⟩ (1 / 5)).unmatched_detected =
      [⟨201 / 10, 40, 7, none, none, none⟩]) ∧
    ((match_peaks_with_reference
        [⟨201 / 10, 40, 7, none, none, none⟩, ⟨199 / 10, 50, 3, none, none, none⟩]
        ⟨some [20], some [100]⟩ (1 / 5)).matched_peaks =
      [(⟨201 / 10, 40, 7, none, none, none⟩, 0, 20, 100)] ∧
    (match_peaks_with_reference
        [⟨201 / 10, 40, 7, none, none, none⟩, ⟨199 / 10, 50, 3, none, none, none⟩]
        ⟨some [20], some [100]⟩ (1 / 5)).unmatched_detected =
      [⟨199 / 10, 50, 3, none, none, none⟩]) ∧
    (match_peaks_with_reference [⟨10, 1, 0, none, none, none⟩]
        ⟨some [1015 / 100, 1005 / 100], none⟩ (1 / 5)).matched_peaks =
      [(⟨10, 1, 0, none, none, none⟩, 1, 1005 / 100, 0)] := by
  have h := c2_matching_greedy_in_input_order
    ⟨199 / 10, 50, 3, none, none, none⟩ ⟨201 / 10, 40, 7, none, none, none⟩
    20 (1 / 5) ⟨some [20], some [100]⟩ rfl
    (by with_unfolding_all decide) (by with_unfolding_all decide)
    (by with_unfolding_all decide)
  obtain ⟨⟨h1, h2⟩, ⟨h3, h4⟩, h5⟩ := h
  exact ⟨⟨h1, h2⟩, ⟨h3, h4⟩,
    h5 ⟨10, 1, 0, none, none, none⟩ ⟨some [1015 / 100, 1005 / 100], none⟩
      (1015 / 100) (1005 / 100) rfl (by with_unfolding_all decide)
      (by with_unfolding_all decide)⟩

/-- A result produced by the inner matching scan is either the incoming
candidate or an entry of the scanned list whose index is unused. -/
theorem bestMatchAux_some_mem (dtt : ℚ) (used : List ℕ) :
    ∀ (l : List (ℕ × ℚ)) (bd : ℚ) (cur : Option (ℕ × ℚ)) (p : ℕ × ℚ),
      bestMatchAux dtt used l bd cur = some p →
      cur = some p ∨ (p ∈ l ∧ p.1 ∉ used)
  | [], _, _, _, h => Or.inl h
  | (i, rt) :: rest, bd, cur, p, h => by
    rw [bestMatchAux] at h
    by_cases hi : i ∈ used
    · rw [if_pos hi] at h
      rcases bestMatchAux_some_mem dtt used rest bd cur p h with h1 | h2
      · exact Or.inl h1
      · exact Or.inr ⟨List.mem_cons_of_mem _ h2.1, h2.2⟩
    · rw [if_neg hi] at h
      by_cases hd : pyAbs (dtt - rt) < bd
      · rw [if_pos hd] at h
        rcases bestMatchAux_some_mem dtt used rest _ _ p h with h1 | h2
        · injection h1 with h1
          subst h1
          exact Or.inr ⟨List.mem_cons_self _ _, hi⟩
        · exact Or.inr ⟨List.mem_cons_of_mem _ h2.1, h2.2⟩
      · rw [if_neg hd] at h
        rcases bestMatchAux_some_mem dtt used rest bd cur p h with h1 | h2
        · exact Or.inl h1
        · exact Or.inr ⟨List.mem_cons_of_mem _ h2.1, h2.2⟩

/-- The first component of an `enumFrom` entry is below `start + length`. -/
theorem mem_enumFrom_fst_lt :
    ∀ (l : List ℚ) (n : ℕ) (x : ℕ × ℚ), x ∈ l.enumFrom n → x.1 < n + l.length
  | [], _, x, h => absurd h (List.not_mem_nil x)
  | a :: t, n, x, h => by
    rw [List.enumFrom] at h
    rcases List.mem_cons.mp h with rfl | h
    · simp
    · have := mem_enumFrom_fst_lt t (n + 1) x h
      simp only [List.length_cons]
      omega

/-- A successful inner scan over the enumerated reference list yields an
in-range, not-yet-used reference index. -/
theorem bestMatch_enum_lt (dtt tolerance : ℚ) (used : List ℕ) (refs : List ℚ)
    (i : ℕ) (rt : ℚ)
    (h : bestMatchAux dtt used refs.enum tolerance none = some (i, rt)) :
    i < refs.length ∧ i ∉ used := by
  rcases bestMatchAux_some_mem dtt used refs.enum tolerance none (i, rt) h with
    h1 | h2
  · cases h1
  · refine ⟨?_, h2.2⟩
    have hg := mem_enumFrom_fst_lt refs 0 (i, rt) h2.1
    simpa using hg

/-- Invariant of the greedy matching loop: the used reference indices stay
distinct and in range, and the matched list stays in bijection with them. -/
theorem matchLoop_invariant (tolerance : ℚ) (refs : List ℚ) (refI : ℕ → ℚ) :
    ∀ (dets : List DetectedPeak) (matched : List (DetectedPeak × ℕ × ℚ × ℚ))
      (used : List ℕ),
      used.Nodup → (∀ i ∈ used, i < refs.length) →
      matched.length = used.length →
      (matchLoop tolerance refs refI dets matched used).2.Nodup ∧
      (∀ i ∈ (matchLoop tolerance refs refI dets matched used).2,
        i < refs.length) ∧
      (matchLoop tolerance refs refI dets matched used).1.length =
        (matchLoop tolerance refs refI dets matched used).2.length
  | [], _, _, h1, h2, h3 => ⟨h1, h2, h3⟩
  | d :: rest, matched, used, h1, h2, h3 => by
    cases hbm : bestMatchAux d.two_theta used refs.enum tolerance none with
    | none =>
      simp only [matchLoop, hbm]
      exact matchLoop_invariant tolerance refs refI rest matched used h1 h2 h3
    | some p =>
      obtain ⟨i, rt⟩ := p
      obtain ⟨hlt, hnotin⟩ := bestMatch_enum_lt _ _ _ _ _ _ hbm
      simp only [matchLoop, hbm]
      refine matchLoop_invariant tolerance refs refI rest _ _ ?_ ?_ ?_
      · simp [List.nodup_append, h1, hnotin]
      · intro j hj
        rcases List.mem_append.mp hj with hj | hj
        · exact h2 j hj
        · rw [List.mem_singleton] at hj
          subst hj
          exact hlt
      · simp [h3]

/-- A duplicate-free list of indices below `n` has at most `n` entries. -/
theorem nodup_lt_length_le {used : List ℕ} {n : ℕ} (h1 : used.Nodup)
    (h2 : ∀ i ∈ used, i < n) : used.length ≤ n := by
  have hsub : used ⊆ List.range n := fun i hi => List.mem_range.mpr (h2 i hi)
  have hlen := (List.subperm_of_subset h1 hsub).length_le
  simpa using hlen

/-- With an empty reference list the greedy loop matches nothing. -/
theorem matchLoop_nil_refs (tolerance : ℚ) (refI : ℕ → ℚ) :
    ∀ (dets : List DetectedPeak)
      (matched : List (DetectedPeak × ℕ × ℚ × ℚ)) (used : List ℕ),
      matchLoop tolerance [] refI dets matched used = (matched, used)
  | [], _, _ => rfl
  | _ :: rest, matched, used => matchLoop_nil_refs tolerance refI rest matched used

/-- Unfolding `match_peaks_with_reference` on a present reference array. -/
theorem match_some_unfold (detected_peaks : List DetectedPeak)
    (ref : ReferencePattern) (refs : List ℚ) (tolerance : ℚ)
    (href : ref.two_theta = some refs) :
    (match_peaks_with_reference detected_peaks ref tolerance).match_score =
      (if 0 < refs.length then
        ((matchLoop tolerance refs (refIntensityAt ref) detected_peaks [] []).1.length : ℚ) /
          (refs.length : ℚ) * 100
      else 0) ∧
    (match_peaks_with_reference detected_peaks ref tolerance).matched_peaks =
      (matchLoop tolerance refs (refIntensityAt ref) detected_peaks [] []).1 ∧
    (match_peaks_with_reference detected_peaks ref tolerance).unmatched_detected =
      detected_peaks.filter
        (fun p =>
          !((matchLoop tolerance refs (refIntensityAt ref) detected_peaks [] []).1.any
            (fun mp => decide (mp.1 = p)))) := by
  unfold match_peaks_with_reference
  rw [href]
  exact ⟨rfl, rfl, rfl⟩

/-- The matched list never exceeds the reference list in length. -/
theorem matchLoop_length_le (tolerance : ℚ) (refs : List ℚ) (refI : ℕ → ℚ)
    (detected_peaks : List DetectedPeak) :
    (matchLoop tolerance refs refI detected_peaks [] []).1.length ≤ refs.length := by
  obtain ⟨hnd, hlt, hlen⟩ := matchLoop_invariant tolerance refs refI detected_peaks
    [] [] List.nodup_nil (by simp) rfl
  rw [hlen]
  exact nodup_lt_length_le hnd hlt

/-- C8: the match score is `matched_count / total_reference_count * 100`,
always lies in `[0, 100]`, and a reference pattern without angle data
(`None`) or with an empty peak list yields score 0 with every detected peak
reported unmatched — with no crash, for every detected list and tolerance. -/
theorem c8_match_score_formula_and_bounds
    (detected_peaks : List DetectedPeak) (ref : ReferencePattern)
    (tolerance : ℚ) :
    (0 ≤ (match_peaks_with_reference detected_peaks ref tolerance).match_score ∧
      (match_peaks_with_reference detected_peaks ref tolerance).match_score ≤ 100) ∧
    (∀ refs : List ℚ, ref.two_theta = some refs → 0 < refs.length →
      (match_peaks_with_reference detected_peaks ref tolerance).match_score =
        ((match_peaks_with_reference detected_peaks ref
            tolerance).matched_peaks.length : ℚ) / (refs.length : ℚ) * 100) ∧
    (ref.two_theta = none →
      (match_peaks_with_reference detected_peaks ref tolerance).match_score = 0 ∧
      (match_peaks_with_reference detected_peaks ref tolerance).unmatched_detected =
        detected_peaks) ∧
    (ref.two_theta = some [] →
      (match_peaks_with_reference detected_peaks ref tolerance).match_score = 0 ∧
      (match_peaks_with_reference detected_peaks ref tolerance).unmatched_detected =
        detected_peaks) := by
  refine ⟨?_, ?_, ?_, ?_⟩
  · cases href : ref.two_theta with
    | none =>
      unfold match_peaks_with_reference
      rw [href]
      norm_num
    | some refs =>
      obtain ⟨hs, -, -⟩ :=
        match_some_unfold detected_peaks ref refs tolerance href
      rw [hs]
      by_cases hpos : 0 < refs.length
      · rw [if_pos hpos]
        have hle := matchLoop_length_le tolerance refs (refIntensityAt ref)
          detected_peaks
        have hq : ((matchLoop tolerance refs (refIntensityAt ref) detected_peaks
            [] []).1.length : ℚ) / (refs.length : ℚ) ≤ 1 :=
          div_le_one_of_le₀ (by exact_mod_cast hle) (Nat.cast_nonneg _)
        constructor
        · positivity
        · calc ((matchLoop tolerance refs (refIntensityAt ref) detected_peaks
                [] []).1.length : ℚ) / (refs.length : ℚ) * 100 ≤ 1 * 100 :=
              mul_le_mul_of_nonneg_right hq (by norm_num)
          _ = 100 := one_mul 100
      · rw [if_neg hpos]
        norm_num
  · intro refs h hpos
    obtain ⟨hs, hm, -⟩ := match_some_unfold detected_peaks ref refs tolerance h
    rw [hs, hm, if_pos hpos]
  · intro href
    unfold match_peaks_with_reference
    rw [href]
    exact ⟨rfl, rfl⟩
  · intro href
    obtain ⟨hs, -, hu⟩ := match_some_unfold detected_peaks ref [] tolerance href
    constructor
    · rw [hs]
      norm_num
    · rw [hu, matchLoop_nil_refs]
      simp

/-- Witness for C8: concrete instances for the score formula, the absent
reference array and the empty reference array. -/
theorem c8_witness :
    ((match_peaks_with_reference [⟨10, 5, 0, none, none, none⟩]
        ⟨some [10], some [100]⟩ (1 / 5)).match_score =
      ((match_peaks_with_reference [⟨10, 5, 0, none, none, none⟩]
          ⟨some [10], some [100]⟩ (1 / 5)).matched_peaks.length : ℚ) /
        ((1 : ℕ) : ℚ) * 100) ∧
    ((match_peaks_with_reference [⟨10, 5, 0, none, none, none⟩]
        ⟨none, none⟩ (1 / 5)).match_score = 0 ∧
      (match_peaks_with_reference [⟨10, 5, 0, none, none, none⟩]
        ⟨none, none⟩ (1 / 5)).unmatched_detected =
        [⟨10, 5, 0, none, none, none⟩]) ∧
    ((match_peaks_with_reference [⟨10, 5, 0, none, none, none⟩]
        ⟨some [], none⟩ (1 / 5)).match_score = 0 ∧
      (match_peaks_with_reference [⟨10, 5, 0, none, none, none⟩]
        ⟨some [], none⟩ (1 / 5)).unmatched_detected =
        [⟨10, 5, 0, none, none, none⟩]) := by
  refine ⟨?_, ?_, ?_⟩
  · exact (c8_match_score_formula_and_bounds [⟨10, 5, 0, none, none, none⟩]
      ⟨some [10], some [100]⟩ (1 / 5)).2.1 [10] rfl (by decide)
  · exact (c8_match_score_formula_and_bounds [⟨10, 5, 0, none, none, none⟩]
      ⟨none, none⟩ (1 / 5)).2.2.1 rfl
  · exact (c8_match_score_formula_and_bounds [⟨10, 5, 0, none, none, none⟩]
      ⟨some [], none⟩ (1 / 5)).2.2.2 rfl

/-- The wavelength table of `strip_kalpha` (kalpha_stripping.py lines
121-127), in dict insertion order: Cu Kα, Cu Kα1, Cu Kα2, Co Kα, Mo Kα. -/
def wavelengthRatioTable : List (ℚ × ℚ) :=
  [(154184 / 100000, 10025 / 10000), (154056 / 100000, 10025 / 10000),
   (154439 / 100000, 10025 / 10000), (179026 / 100000, 10023 / 10000),
   (70932 / 100000, 10018 / 10000)]

/-- Embeds `min(wavelength_ratios.keys(), key=lambda x: abs(x - wavelength))`
(line 130): the first key with minimal absolute distance. -/
def closestWavelength (wavelength : ℚ) : ℚ :=
  match wavelengthRatioTable with
  | [] => 0
  | (k, _) :: rest =>
    (rest.map Prod.fst).foldl
      (fun best x =>
        if pyAbs (x - wavelength) < pyAbs (best - wavelength) then x else best) k

/-- The table ratio of the closest known wavelength (line 132). -/
def closestWavelengthRatio (wavelength : ℚ) : ℚ :=
  ((wavelengthRatioTable.find?
      (fun p => decide (p.1 = closestWavelength wavelength))).map Prod.snd).getD 0

/-- Optional keyword arguments accepted by the stripping methods. -/
structure StripKwargs where
  wavelength_ratio : Option ℚ := none
  intensity_ratio : Option ℚ := none
  iterations : Option ℕ := none

/-- The kwargs update of `strip_kalpha` (lines 118-132): when a wavelength is
supplied and no explicit `wavelength_ratio` override is present, insert the
ratio of the closest table wavelength. -/
def stripResolveKwargs (wavelength : Option ℚ) (k : StripKwargs) : StripKwargs :=
  match wavelength with
  | none => k
  | some wl =>
    if k.wavelength_ratio.isNone then
      { k with wavelength_ratio := some (closestWavelengthRatio wl) }
    else k

/-- The valid method names of `strip_kalpha`, in dict order
(kalpha_stripping.py lines 134-137). -/
def stripValidMethods : List String := ["rachinger", "iterative_rachinger"]

/-- Embeds `strip_kalpha` (kalpha_stripping.py lines 101-142): resolve the
wavelength ratio, then dispatch by method name; unknown names raise
`ValueError` listing the valid names. -/
def strip_kalpha (shift : ℚ → ℚ → ℚ) (two_theta intensity : List ℚ)
    (method : String) (wavelength : Option ℚ) (k : StripKwargs) :
    Except String (List ℚ × List ℚ) :=
  let k := stripResolveKwargs wavelength k
  if method = "rachinger" then
    .ok (rachinger_correction shift two_theta intensity
      (k.wavelength_ratio.getD (10025 / 10000)) (k.intensity_ratio.getD (1 / 2)))
  else if method = "iterative_rachinger" then
    .ok (iterative_rachinger_correction shift two_theta intensity
      (k.wavelength_ratio.getD (10025 / 10000)) (k.intensity_ratio.getD (1 / 2))
      (k.iterations.getD 3))
  else .error (unknownMethodMsg method stripValidMethods)

/-- C7: each of the three dispatchers raises an error listing its valid
method names on any name outside its set — never silently substituting a
default — and on each recognized name dispatches to the corresponding
algorithm with the remaining parameters passed through unchanged (each
omitted kwarg falling back to the declared default of that algorithm). -/
theorem c7_dispatch_unknown_errors_and_known_pass_through
    (polyfit : List ℚ → List ℚ → ℕ → List ℚ)
    (greyOpening : List ℚ → ℕ → List ℚ)
    (gaussianFilter1d : List ℚ → ℚ → List ℚ)
    (shift : ℚ → ℚ → ℚ)
    (fpIndices : List ℚ → Option ℚ → Option ℚ → Option ℕ → Option ℕ → List ℕ)
    (fpProminences fpWidths : List ℚ → List ℕ → List ℚ)
    (savgolFilter : List ℚ → ℕ → ℕ → List ℚ)
    (two_theta intensity : List ℚ) (m : String)
    (bgk : BgKwargs) (wavelength : Option ℚ) (sk : StripKwargs)
    (pk : PeakKwargs) :
    (m ∉ bgValidMethods →
      subtract_background polyfit greyOpening gaussianFilter1d two_theta
          intensity m bgk =
        .error (unknownMethodMsg m bgValidMethods)) ∧
    (m ∉ stripValidMethods →
      strip_kalpha shift two_theta intensity m wavelength sk =
        .error (unknownMethodMsg m stripValidMethods)) ∧
    (m ∉ peakValidMethods →
      detect_peaks fpIndices fpProminences fpWidths savgolFilter two_theta
          intensity m pk =
        .error (unknownMethodMsg m peakValidMethods)) ∧
    (subtract_background polyfit greyOpening gaussianFilter1d two_theta
        intensity "polynomial" bgk =
      .ok (polynomial_background polyfit two_theta intensity
        (bgk.degree.getD 6))) ∧
    (subtract_background polyfit greyOpening gaussianFilter1d two_theta
        intensity "iterative_polynomial" bgk =
      .ok (iterative_polynomial_background polyfit two_theta intensity
        (bgk.degree.getD 6) (bgk.iterations.getD 10)
        (bgk.threshold.getD (1 / 10)))) ∧
    (subtract_background polyfit greyOpening gaussianFilter1d two_theta
        intensity "rolling_ball" bgk =
      .ok (rolling_ball_background greyOpening gaussianFilter1d two_theta
        intensity bgk.ball_radius)) ∧
    (subtract_background polyfit greyOpening gaussianFilter1d two_theta
        intensity "tophat" bgk =
      .ok (tophat_background greyOpening two_theta intensity
        bgk.structure_size)) ∧
    (subtract_background polyfit greyOpening gaussianFilter1d two_theta
        intensity "snip" bgk =
      .ok (snip_background two_theta intensity (bgk.iterations.getD 100)
        (bgk.reduction_factor.getD (1 / 2)))) ∧
    (strip_kalpha shift two_theta intensity "rachinger" wavelength sk =
      .ok (rachinger_correction shift two_theta intensity
        ((stripResolveKwargs wavelength sk).wavelength_ratio.getD
          (10025 / 10000))
        ((stripResolveKwargs wavelength sk).intensity_ratio.getD (1 / 2)))) ∧
    (strip_kalpha shift two_theta intensity "iterative_rachinger" wavelength
        sk =
      .ok (iterative_rachinger_correction shift two_theta intensity
        ((stripResolveKwargs wavelength sk).wavelength_ratio.getD
          (10025 / 10000))
        ((stripResolveKwargs wavelength sk).intensity_ratio.getD (1 / 2))
        ((stripResolveKwargs wavelength sk).iterations.getD 3))) ∧
    (detect_peaks fpIndices fpProminences fpWidths savgolFilter two_theta
        intensity "prominence" pk =
      .ok (detect_peaks_prominence fpIndices fpProminences fpWidths two_theta
        intensity pk.prominence pk.height pk.distance pk.width)) ∧
    (detect_peaks fpIndices fpProminences fpWidths savgolFilter two_theta
        intensity "threshold" pk =
      .ok (detect_peaks_threshold two_theta intensity pk.threshold
        (pk.min_distance.getD 5))) ∧
    (detect_peaks fpIndices fpProminences fpWidths savgolFilter two_theta
        intensity "derivative" pk =
      .ok (detect_peaks_derivative two_theta intensity pk.threshold
        (pk.min_distance.getD 5))) ∧
    (detect_peaks fpIndices fpProminences fpWidths savgolFilter two_theta
        intensity "savgol" pk =
      .ok (detect_peaks_savgol fpIndices fpProminences fpWidths savgolFilter
        two_theta intensity (pk.window_length.getD 11) (pk.poly_order.getD 3)
        pk.prominence pk.distance)) := by
  refine ⟨?_, ?_, ?_, rfl, rfl, rfl, rfl, rfl, rfl, rfl, rfl, rfl, rfl, rfl⟩
  · intro hm
    simp only [bgValidMethods, List.mem_cons, List.not_mem_nil, or_false] at hm
    push_neg at hm
    obtain ⟨h1, h2, h3, h4, h5⟩ := hm
    simp [subtract_background, h1, h2, h3, h4, h5]
  · intro hm
    simp only [stripValidMethods, List.mem_cons, List.not_mem_nil, or_false] at hm
    push_neg at hm
    obtain ⟨h1, h2⟩ := hm
    simp [strip_kalpha, h1, h2]
  · intro hm
    simp only [peakValidMethods, List.mem_cons, List.not_mem_nil, or_false] at hm
    push_neg at hm
    obtain ⟨h1, h2, h3, h4⟩ := hm
    simp [detect_peaks, h1, h2, h3, h4]

/-- Witness for C7: the unknown name "gaussian" is rejected by all three
dispatchers with the name-listing error, and "polynomial" dispatches to the
polynomial background with the default degree 6. -/
theorem c7_witness :
    (subtract_background (fun _ _ _ => []) (fun _ _ => []) (fun _ _ => [])
        [1, 2] [3, 4] "gaussian" {} =
      .error (unknownMethodMsg "gaussian" bgValidMethods)) ∧
    (strip_kalpha (fun _ _ => 0) [1, 2] [3, 4] "gaussian" none {} =
      .error (unknownMethodMsg "gaussian" stripValidMethods)) ∧
    (detect_peaks (fun _ _ _ _ _ => []) (fun _ _ => []) (fun _ _ => [])
        (fun _ _ _ => []) [1, 2] [3, 4] "gaussian" {} =
      .error (unknownMethodMsg "gaussian" peakValidMethods)) ∧
    (subtract_background (fun _ _ _ => []) (fun _ _ => []) (fun _ _ => [])
        [1, 2] [3, 4] "polynomial" {} =
      .ok (polynomial_background (fun _ _ _ => []) [1, 2] [3, 4] 6)) := by
  have h := c7_dispatch_unknown_errors_and_known_pass_through
    (fun _ _ _ => []) (fun _ _ => []) (fun _ _ => []) (fun _ _ => 0)
    (fun _ _ _ _ _ => []) (fun _ _ => []) (fun _ _ => []) (fun _ _ _ => [])
    [1, 2] [3, 4] "gaussian" {} none {} {}
  have h2 := c7_dispatch_unknown_errors_and_known_pass_through
    (fun _ _ _ => []) (fun _ _ => []) (fun _ _ => []) (fun _ _ => 0)
    (fun _ _ _ _ _ => []) (fun _ _ => []) (fun _ _ => []) (fun _ _ _ => [])
    [1, 2] [3, 4] "polynomial" {} none {} {}
  exact ⟨h.1 (by decide), h.2.1 (by decide), h.2.2.1 (by decide),
    h2.2.2.2.1⟩

/-- Python `\s` whitespace class (ASCII range), used by `str.strip`, `str.split`
and the delimiter regexes of the text parsers. -/
def pyIsSpace (c : Char) : Bool :=
  c = ' ' || c = '\t' || c = '\n' || c = '\r' || c = '\x0b' || c = '\x0c'

/-- Python `str.strip()`: drop whitespace from both ends.  Text lines are
modelled as character lists. -/
def pyStrip (s : List Char) : List Char :=
  ((s.dropWhile pyIsSpace).reverse.dropWhile pyIsSpace).reverse

/-- Embeds `dropWhile` never lengthens a list. -/
theorem dropWhile_length_le (p : Char → Bool) :
    ∀ l : List Char, (l.dropWhile p).length ≤ l.length
  | [] => le_refl 0
  | c :: t => by
    rw [List.dropWhile]
    split
    · exact le_trans (dropWhile_length_le p t) (Nat.le_succ _)
    · exact le_refl _

/-- Embeds `re.split(r"[delims]+", s)`: split on maximal delimiter runs; a leading
or trailing run contributes an empty token (whose `float()` parse fails, so
such lines are skipped), interior runs do not. -/
def reSplitAux (isDelim : Char → Bool) : List Char → List Char → List (List Char)
  | acc, [] => [acc.reverse]
  | acc, c :: rest =>
    if isDelim c then
      acc.reverse :: reSplitAux isDelim [] (rest.dropWhile isDelim)
    else reSplitAux isDelim (c :: acc) rest
termination_by _ l => l.length
decreasing_by
  · have := dropWhile_length_le isDelim rest
    simp only [List.length_cons]
    omega
  · simp

/-- Embeds `re.split` with a `+`-quantified delimiter class. -/
def reSplitPlus (isDelim : Char → Bool) (s : List Char) : List (List Char) :=
  reSplitAux isDelim [] s

/-- The delimiter class `[\s\t,]` of `DATParser` (file_parser.py line 119). -/
def datDelim (c : Char) : Bool := pyIsSpace c || c = ','

/-- The delimiter class `[\s\t,;]` of `ASCParser` (line 157). -/
def ascDelim (c : Char) : Bool := pyIsSpace c || c = ',' || c = ';'

/-- The delimiter class `[\s\t,;|]` of `TXTParser` (line 203). -/
def txtDelim (c : Char) : Bool := pyIsSpace c || c = ',' || c = ';' || c = '|'

/-- Parse one data line: split, require at least two tokens, and parse the
first two as floats; any `ValueError` skips the line (file_parser.py lines
118-126).  `pyFloat` abstracts Python `float()` literal parsing. -/
def parseLinePair (pyFloat : List Char → Option ℚ) (isDelim : Char → Bool)
    (line : List Char) : Option (ℚ × ℚ) :=
  let parts := reSplitPlus isDelim line
  if 2 ≤ parts.length then
    match pyFloat (parts.getD 0 []), pyFloat (parts.getD 1 []) with
    | some a, some b => some (a, b)
    | _, _ => none
  else none

namespace DATParser

/-- Embeds `DATParser.parse` (file_parser.py lines 104-138) on the lines of the file:
skip blank and `#` lines, collect `(two_theta, intensity)` pairs, fail when
none parsed.  Returns the unzipped `(two_thetas, intensities)` arrays. -/
def parse (pyFloat : List Char → Option ℚ) (lines : List (List Char)) :
    Except String (List ℚ × List ℚ) :=
  let data := lines.filterMap (fun ln =>
    let line := pyStrip ln
    if line.isEmpty then none
    else if line.headD ' ' = '#' then none
    else parseLinePair pyFloat datDelim line)
  if data.isEmpty then .error "No valid data found in DAT file"
  else .ok (data.map Prod.fst, data.map Prod.snd)

end DATParser

namespace ASCParser

/-- Embeds `ASCParser.parse` (file_parser.py lines 141-175): like DAT but with `;`
as an extra delimiter and no comment-line skipping. -/
def parse (pyFloat : List Char → Option ℚ) (lines : List (List Char)) :
    Except String (List ℚ × List ℚ) :=
  let data := lines.filterMap (fun ln =>
    let line := pyStrip ln
    if line.isEmpty then none
    else parseLinePair pyFloat ascDelim line)
  if data.isEmpty then .error "No valid data found in ASC file"
  else .ok (data.map Prod.fst, data.map Prod.snd)

end ASCParser

/-- The header-detection pattern `^\s*[\d\.]+\s+[\d\.]` of `TXTParser`
(file_parser.py line 193). -/
def txtHeaderMatch (line : List Char) : Bool :=
  let l1 := line.dropWhile pyIsSpace
  let num := l1.takeWhile (fun c => c.isDigit || c = '.')
  if num.isEmpty then false
  else
    let l2 := l1.drop num.length
    let sp := l2.takeWhile pyIsSpace
    if sp.isEmpty then false
    else
      match l2.drop sp.length with
      | c :: _ => c.isDigit || c = '.'
      | [] => false

/-- The header scan of `TXTParser` (lines 191-195): index of the first of
the first 10 lines matching the numeric-pair pattern, else 0. -/
def txtStartIdx (lines : List (List Char)) : ℕ :=
  match (lines.take 10).findIdx? txtHeaderMatch with
  | some i => i
  | none => 0

namespace TXTParser

/-- Embeds `TXTParser.parse` (file_parser.py lines 178-221): auto-detect the header,
then parse like DAT with the extended delimiter class. -/
def parse (pyFloat : List Char → Option ℚ) (lines : List (List Char)) :
    Except String (List ℚ × List ℚ) :=
  let data := (lines.drop (txtStartIdx lines)).filterMap (fun ln =>
    let line := pyStrip ln
    if line.isEmpty then none
    else if line.headD ' ' = '#' then none
    else parseLinePair pyFloat txtDelim line)
  if data.isEmpty then .error "No valid data found in TXT file"
  else .ok (data.map Prod.fst, data.map Prod.snd)

end TXTParser

/-- Python `str.split()` with no separator: whitespace runs, no empty
tokens. -/
def pySplitWs : List Char → List Char → List (List Char)
  | acc, [] => if acc.isEmpty then [] else [acc.reverse]
  | acc, c :: rest =>
    if pyIsSpace c then
      if acc.isEmpty then pySplitWs [] rest
      else acc.reverse :: pySplitWs [] rest
    else pySplitWs (c :: acc) rest

/-- The relevant content of a parsed XRDML document: whether the
`kAlpha1` wavelength element was found and its text, and the text of each
matched positions/counts element on the primary path
(`scan/dataPoints/positions/listPositions` and `scan/dataPoints/counts`) and
on the fallback path (`positions/listPositions` and `counts`).  An element
with no text carries `none`. -/
structure XrdmlDoc where
  kalpha1Found : Bool
  kalpha1Text : Option (List Char)
  scanPositions : List (Option (List Char))
  scanCounts : List (Option (List Char))
  altPositions : List (Option (List Char))
  altCounts : List (Option (List Char))

/-- The whitespace tokens of the text of one element; a missing or empty (falsy)
text contributes nothing (file_parser.py lines 64-67). -/
def elemTokens (t : Option (List Char)) : List (List Char) :=
  match t with
  | none => []
  | some s => if s.isEmpty then [] else pySplitWs [] s

/-- Embeds `[float(x) for x in text.split()]` over a list of elements; a failed
float conversion is a `ValueError` aborting the whole parse. -/
def gatherElems (pyFloat : List Char → Option ℚ)
    (texts : List (Option (List Char))) : Option (List ℚ) :=
  (texts.mapM (fun t => (elemTokens t).mapM pyFloat)).map List.flatten

namespace XRDMLParser

/-- The wavelength extraction of `XRDMLParser.parse` (file_parser.py lines
48-52): `float(elem.text)` when the `kAlpha1` element was found. -/
def wavelengthOf (pyFloat : List Char → Option ℚ) (doc : XrdmlDoc) :
    Except String (Option ℚ) :=
  if doc.kalpha1Found then
    match doc.kalpha1Text with
    | none => .error "TypeError: float() argument must be a string"
    | some t =>
      match pyFloat t with
      | none => .error "ValueError: could not convert string to float"
      | some v => .ok (some v)
  else .ok none

/-- The primary-path extraction (lines 59-73): only when both element lists
are nonempty. -/
def primaryArrays (pyFloat : List Char → Option ℚ) (doc : XrdmlDoc) :
    Except String (List ℚ × List ℚ) :=
  if ¬doc.scanPositions.isEmpty ∧ ¬doc.scanCounts.isEmpty then
    match gatherElems pyFloat doc.scanPositions,
        gatherElems pyFloat doc.scanCounts with
    | some ts, some cs => .ok (ts, cs)
    | _, _ => .error "ValueError: could not convert string to float"
  else .ok ([], [])

/-- The fallback-path extension (lines 76-86): when no positions were found
on the primary path, extend both arrays from the alternative locations. -/
def arraysOf (pyFloat : List Char → Option ℚ) (doc : XrdmlDoc) :
    Except String (List ℚ × List ℚ) :=
  match primaryArrays pyFloat doc with
  | .error e => .error e
  | .ok tc =>
    if tc.1.isEmpty then
      if ¬doc.altPositions.isEmpty ∧ ¬doc.altCounts.isEmpty then
        match gatherElems pyFloat doc.altPositions,
            gatherElems pyFloat doc.altCounts with
        | some ts, some cs => .ok (tc.1 ++ ts, tc.2 ++ cs)
        | _, _ => .error "ValueError: could not convert string to float"
      else .ok tc
    else .ok tc

/-- The final emptiness check and truncation to the shorter length (lines
88-94). -/
def finish (wavelength : Option ℚ) (ts cs : List ℚ) :
    Except String (Option ℚ × List ℚ × List ℚ) :=
  if ts.isEmpty ∨ cs.isEmpty then
    .error "Could not extract data from XRDML file"
  else
    let min_len := min ts.length cs.length
    .ok (wavelength, ts.take min_len, cs.take min_len)

/-- Embeds `XRDMLParser.parse` (file_parser.py lines 36-101): read the wavelength,
extract positions/counts from the primary path, fall back to the alternative
path when no positions were found, fail when either array is empty, and
truncate both to the shorter length.  Returns
`(wavelength, two_thetas, intensities)`. -/
def parse (pyFloat : List Char → Option ℚ) (doc : XrdmlDoc) :
    Except String (Option ℚ × List ℚ × List ℚ) :=
  match wavelengthOf pyFloat doc with
  | .error e => .error e
  | .ok wavelength =>
    match arraysOf pyFloat doc with
    | .error e => .error e
    | .ok tc => finish wavelength tc.1 tc.2

end XRDMLParser

/-- Embeds `struct.unpack_from(ltI, data, offset)`: 4 bytes as an unsigned
little-endian 32-bit integer; `none` past the end of the buffer. -/
def readU32 (data : List ℕ) (offset : ℕ) : Option ℕ :=
  match data.drop offset with
  | b0 :: b1 :: b2 :: b3 :: _ =>
    some (b0 + 256 * b1 + 65536 * b2 + 16777216 * b3)
  | _ => none

/-- IEEE-754 binary32 decoding of 4 little-endian bytes, exactly, into ℚ;
`none` stands for a non-finite value (NaN or ±Inf, exponent 255). -/
def decodeF32 (b0 b1 b2 b3 : ℕ) : Option ℚ :=
  let bits : ℕ := b0 + 256 * b1 + 65536 * b2 + 16777216 * b3
  let sign : ℕ := bits / 2 ^ 31 % 2
  let expo : ℕ := bits / 2 ^ 23 % 256
  let frac : ℕ := bits % 2 ^ 23
  if expo = 255 then none
  else
    let mag : ℚ :=
      if expo = 0 then (frac : ℚ) / 2 ^ 149
      else ((2 ^ 23 + frac : ℕ) : ℚ) * (2 : ℚ) ^ ((expo : ℤ) - 150)
    some (if sign = 1 then -mag else mag)

/-- Embeds `struct.unpack_from(ltf, data, offset)`: one float32; the outer `none` is
an out-of-range read, the inner `Option` finiteness. -/
def readF32 (data : List ℕ) (offset : ℕ) : Option (Option ℚ) :=
  match data.drop offset with
  | b0 :: b1 :: b2 :: b3 :: _ => some (decodeF32 b0 b1 b2 b3)
  | _ => none

/-- Embeds `np.frombuffer(bytes, dtype=ltf4)`: decode consecutive 4-byte groups. -/
def decodeF32List : List ℕ → List (Option ℚ)
  | b0 :: b1 :: b2 :: b3 :: rest => decodeF32 b0 b1 b2 b3 :: decodeF32List rest
  | _ => []

/-- The byte slice `data[offset : offset + len]`. -/
def sliceBytes (data : List ℕ) (offset len : ℕ) : List ℕ :=
  (data.drop offset).take len

/-- Embeds `np.isfinite(x) & (x < 1e10)` on one decoded float32 (NaN compares false
on both sides, as in numpy). -/
def isValidF32 (v : Option ℚ) : Bool :=
  match v with
  | some q => decide (q < 10 ^ 10)
  | none => false

/-- The plausibility test of the RAW heuristics (file_parser.py lines
272-274): at least one positive value, all finite, all below 1e10. -/
def rawPlausible (vals : List (Option ℚ)) : Bool :=
  (vals.any (fun v =>
    match v with
    | some q => decide (0 < q)
    | none => false)) &&
  (vals.all (fun v => v.isSome)) &&
  (vals.all (fun v =>
    match v with
    | some q => decide (q < 10 ^ 10)
    | none => false))

/-- The scanned byte offsets `range(0, min(10000, file_size - 4), 4)` of RAW
methods 1 and 2 (lines 251 and 289). -/
def rawScanOffsets (size : ℕ) : List ℕ :=
  (List.range ((min 10000 (size - 4) + 3) / 4)).map (fun k => 4 * k)

/-- One offset probe of RAW method 1 (lines 251-280): read a count, require
it in `[100, 100000]`, and accept when count-plus-data fits the file exactly,
or when the offset is at least 100 bytes in and the first up-to-100 floats
after it look plausible. -/
def rawMethod1Test (data : List ℕ) (size offset : ℕ) : Option (ℕ × ℕ) :=
  match readU32 data offset with
  | none => none
  | some count =>
    if 100 ≤ count ∧ count ≤ 100000 then
      if offset + 4 + count * 4 = size then some (count, offset + 4)
      else if 100 ≤ offset ∧ offset + 4 + count * 4 ≤ size then
        let test := decodeF32List (sliceBytes data (offset + 4) (min 400 (count * 4)))
        if 0 < test.length ∧ rawPlausible test then some (count, offset + 4)
        else none
      else none
    else none

/-- RAW method 1: first succeeding offset wins. -/
def rawMethod1 (data : List ℕ) (size : ℕ) : Option (ℕ × ℕ) :=
  (rawScanOffsets size).findSome? (rawMethod1Test data size)

/-- RAW method 2 header scan (lines 288-302): the first float in `[4, 10]`
as start angle, the first in `[80, 100]` as end angle, the first in
`[0.01, 0.1]` as step. -/
def rawMethod2Scan (data : List ℕ) (size : ℕ) :
    Option ℚ × Option ℚ × Option ℚ :=
  (rawScanOffsets size).foldl
    (fun acc offset =>
      match readF32 data offset with
      | some (some v) =>
        (if acc.1.isNone ∧ 4 ≤ v ∧ v ≤ 10 then some v else acc.1,
         if acc.2.1.isNone ∧ 80 ≤ v ∧ v ≤ 100 then some v else acc.2.1,
         if acc.2.2.isNone ∧ 1 / 100 ≤ v ∧ v ≤ 1 / 10 then some v else acc.2.2)
      | _ => acc)
    (none, none, none)

/-- The candidate-header probe of RAW method 2 (lines 311-324): the first
header size whose data region fits and starts with plausible floats. -/
def rawProbeHeaders (data : List ℕ) (size count : ℕ) : List ℕ → Option ℕ
  | [] => none
  | h :: rest =>
    if h + count * 4 ≤ size then
      let test := decodeF32List (sliceBytes data h (min 400 (count * 4)))
      if 0 < test.length ∧ rawPlausible test then some h
      else rawProbeHeaders data size count rest
    else rawProbeHeaders data size count rest

/-- RAW method 3, remainder heuristic (lines 329-343): use
`file_size % 4` as the header length and expect a count field there with
count-plus-data ending the file exactly. -/
def rawMethod3A (data : List ℕ) (size : ℕ) : Option (ℕ × ℕ) :=
  let remaining := size % 4
  if 0 < remaining then
    if remaining + 4 ≤ size then
      match readU32 data remaining with
      | some count =>
        if 100 ≤ count ∧ count ≤ 100000 ∧ remaining + 4 + count * 4 = size then
          some (count, remaining + 4)
        else none
      | none => none
    else none
  else none

/-- RAW method 3, fixed header sizes (lines 346-363): derive the count from
the remaining bytes and keep the first plausible candidate. -/
def rawMethod3B (data : List ℕ) (size : ℕ) : List ℕ → Option (ℕ × ℕ)
  | [] => none
  | h :: rest =>
    let potential := (size - h) / 4
    if 100 ≤ potential ∧ potential ≤ 100000 then
      let test := decodeF32List (sliceBytes data h (min 400 (potential * 4)))
      if 0 < test.length ∧ rawPlausible test then some (potential, h)
      else rawMethod3B data size rest
    else rawMethod3B data size rest

/-- Layout discovery of `RAWParser.parse` (lines 249-378), methods 1-4 in
order, producing `(data_offset, data_count, start_angle, end_angle?, step)`
with the defaults `start = 5.0` and `step = 0.02` applied when undiscovered
(lines 374-378).  The method-2 path with no plausible header and a failing
remainder heuristic leaves `data_offset = None` in Python and crashes with a
`TypeError` at line 382, modelled as an error. -/
def rawLayout (data : List ℕ) (size : ℕ) :
    Except String (ℕ × ℕ × ℚ × Option ℚ × ℚ) :=
  match rawMethod1 data size with
  | some (count, offset) => .ok (offset, count, 5, none, 1 / 50)
  | none =>
    match rawMethod2Scan data size with
    | (some s, some e, some st) =>
      let count := (pyInt ((e - s) / st) + 1).toNat
      match rawProbeHeaders data size count
          [3238, 2048, 4096, 1024, 512, 256, 128] with
      | some h => .ok (h, count, s, some e, st)
      | none =>
        match rawMethod3A data size with
        | some (c, off) => .ok (off, c, s, some e, st)
        | none => .error "TypeError: unsupported operand type(s) for +"
    | _ =>
      match rawMethod3A data size with
      | some (c, off) => .ok (off, c, 5, none, 1 / 50)
      | none =>
        match rawMethod3B data size [3238, 2048, 4096, 1024, 512, 256] with
        | some (c, off) => .ok (off, c, 5, none, 1 / 50)
        | none =>
          let est := min 4096 (size / 4)
          let c := (size - est) / 4
          if c < 100 then .error "RAW file too small or invalid structure"
          else .ok (est, c, 5, none, 1 / 50)

/-- Embeds `np.linspace(s, e, n)` with endpoint, exactly. -/
def linspace (s e : ℚ) (n : ℕ) : List ℚ :=
  if n = 0 then []
  else if n = 1 then [s]
  else (List.range n).map (fun i : ℕ => s + (e - s) * (i : ℚ) / ((n : ℚ) - 1))

/-- The step re-inference of `RAWParser.parse` (lines 429-441 and 454-464):
assume a canonical 5-90 degree scan and accept the implied step when it lands
in `[0.005, 0.1]`, otherwise cap the calculated end at 120. -/
def rawInferStep (s calculated_end st : ℚ) (n : ℕ) : ℚ × ℚ :=
  let inferred_step := (90 - s) / ((n : ℚ) - 1)
  if 1 / 200 ≤ inferred_step ∧ inferred_step ≤ 1 / 10 then (90, inferred_step)
  else (qmin calculated_end 120, st)

/-- The end-angle reconciliation of `RAWParser.parse` (lines 399-476), given
the discovered start, optional end, step and the actual data count.  Returns
the final `(end_angle, step)`; the angle array is
`linspace(start, end_angle, n)` in every branch. -/
def rawResolveEnd (s : ℚ) (endOpt : Option ℚ) (st : ℚ) (n : ℕ) : ℚ × ℚ :=
  if s = 0 ∨ st = 0 then
    (qmin (s + ((n : ℚ) - 1) * st) 90, st)
  else
    let calculated_end := s + ((n : ℚ) - 1) * st
    let endTruthy : Option ℚ :=
      match endOpt with
      | some e => if e = 0 then none else some e
      | none => none
    match endTruthy with
    | some e =>
      let expected_count := pyInt ((e - s) / st) + 1
      if (expected_count - (n : ℤ) ≤ 1 ∧ (n : ℤ) - expected_count ≤ 1) ∧
          (5 ≤ e ∧ e ≤ 120) ∧ pyAbs (calculated_end - e) < 5 then (e, st)
      else if 120 < calculated_end then
        if 4 ≤ s ∧ s ≤ 6 then rawInferStep s calculated_end st n
        else (qmin calculated_end 120, st)
      else (calculated_end, st)
    | none =>
      if 120 < calculated_end ∧ 4 ≤ s ∧ s ≤ 6 then rawInferStep s calculated_end st n
      else (qmin calculated_end 120, st)

/-- The spectrum and metadata returned by `RAWParser.parse`. -/
structure RawResult where
  two_thetas : List ℚ
  intensities : List (Option ℚ)
  data_count : ℕ
  data_offset : ℕ
  start_angle : ℚ
  end_angle : ℚ
  step : ℚ

/-- The value filter of `RAWParser.parse` (lines 390-397): drop non-finite
or overlarge values only when at least one valid value exists and not all
are valid. -/
def rawFilterValues (raw : List (Option ℚ)) : List (Option ℚ) :=
  if raw.any isValidF32 then
    if raw.all isValidF32 then raw else raw.filter isValidF32
  else raw

/-- The final `data_count > 0` check and angle synthesis of `RAWParser.parse`
(lines 399-489).  In every Python branch the angle ramp is
`np.linspace(start_angle, end_angle, data_count)` where `data_count` equals
the length of the (possibly filtered) intensity array — Python refreshes
`data_count` after filtering (line 397) and in the unfiltered branches the
count already equals the array length. -/
def finishRaw (data_offset : ℕ) (s : ℚ) (endOpt : Option ℚ) (st : ℚ)
    (intensities : List (Option ℚ)) : Except String RawResult :=
  if intensities.length = 0 then .error "No valid data found in RAW file"
  else
    let es := rawResolveEnd s endOpt st intensities.length
    .ok { two_thetas := linspace s es.1 intensities.length
          intensities := intensities
          data_count := intensities.length
          data_offset := data_offset
          start_angle := s
          end_angle := es.1
          step := es.2 }

namespace RAWParser

/-- Embeds `RAWParser.parse` (file_parser.py lines 224-489): discover the layout,
read `data_count` float32 values, filter them, and synthesize the angle
ramp. -/
def parse (data : List ℕ) : Except String RawResult :=
  let size := data.length
  match rawLayout data size with
  | .error e => .error e
  | .ok layout =>
    if size < layout.1 + layout.2.1 * 4 then
      .error "Invalid data structure"
    else
      finishRaw layout.1 layout.2.2.1 layout.2.2.2.1 layout.2.2.2.2
        (rawFilterValues (decodeF32List (sliceBytes data layout.1 (layout.2.1 * 4))))

end RAWParser

theorem linspace_length (s e : ℚ) (n : ℕ) : (linspace s e n).length = n := by
  unfold linspace
  split
  · simp [*]
  · split
    · simp [*]
    · simp

/-- A collect-pairs-then-unzip parser returns equal-length nonempty arrays
whenever it succeeds. -/
theorem unzip_ok {data : List (ℚ × ℚ)} {p : List ℚ × List ℚ} (msg : String)
    (h : (if data.isEmpty then Except.error msg
          else Except.ok (data.map Prod.fst, data.map Prod.snd) :
            Except String (List ℚ × List ℚ)) = .ok p) :
    p.1.length = p.2.length ∧ 1 ≤ p.1.length := by
  by_cases he : data.isEmpty
  · rw [if_pos he] at h
    cases h
  · rw [if_neg he] at h
    injection h with h
    subst h
    have hne : data ≠ [] := by
      intro hnil
      exact he (by simp [hnil])
    have hpos : 0 < data.length := List.length_pos.mpr hne
    constructor
    · simp
    · simpa using hpos

/-- A successful XRDML truncation step yields equal-length nonempty arrays. -/
theorem xrdml_finish_ok {wavelength : Option ℚ} {ts cs : List ℚ}
    {r : Option ℚ × List ℚ × List ℚ}
    (h : XRDMLParser.finish wavelength ts cs = .ok r) :
    r.2.1.length = r.2.2.length ∧ 1 ≤ r.2.1.length := by
  unfold XRDMLParser.finish at h
  split at h
  · cases h
  · next hne =>
    injection h with h
    subst h
    rw [not_or] at hne
    have h1 : ts ≠ [] := by
      intro hnil
      exact hne.1 (by simp [hnil])
    have h2 : cs ≠ [] := by
      intro hnil
      exact hne.2 (by simp [hnil])
    have p1 : 0 < ts.length := List.length_pos.mpr h1
    have p2 : 0 < cs.length := List.length_pos.mpr h2
    simp only [List.length_take]
    omega

/-- A successful RAW finishing step yields a nonempty angle ramp of exactly
the length of the intensity array. -/
theorem finishRaw_ok {data_offset : ℕ} {s : ℚ} {endOpt : Option ℚ} {st : ℚ}
    {intensities : List (Option ℚ)} {r : RawResult}
    (h : finishRaw data_offset s endOpt st intensities = .ok r) :
    r.two_thetas.length = r.intensities.length ∧ 1 ≤ r.intensities.length := by
  unfold finishRaw at h
  split at h
  · cases h
  · next hn =>
    injection h with h
    subst h
    refine ⟨by simp [linspace_length], ?_⟩
    show 1 ≤ intensities.length
    omega

/-- C4: every parser — the three delimited-text variants, the XRDML parser
and the binary RAW parser — either fails with an error, or returns angle and
intensity arrays of equal length, that length being at least 1 (so a parse
that can extract no valid pair can never succeed). -/
theorem c4_parsers_equal_length_nonempty_or_fail
    (pyFloat : List Char → Option ℚ) (lines : List (List Char))
    (doc : XrdmlDoc) (data : List ℕ) :
    (∀ p : List ℚ × List ℚ, DATParser.parse pyFloat lines = .ok p →
      p.1.length = p.2.length ∧ 1 ≤ p.1.length) ∧
    (∀ p : List ℚ × List ℚ, ASCParser.parse pyFloat lines = .ok p →
      p.1.length = p.2.length ∧ 1 ≤ p.1.length) ∧
    (∀ p : List ℚ × List ℚ, TXTParser.parse pyFloat lines = .ok p →
      p.1.length = p.2.length ∧ 1 ≤ p.1.length) ∧
    (∀ r : Option ℚ × List ℚ × List ℚ, XRDMLParser.parse pyFloat doc = .ok r →
      r.2.1.length = r.2.2.length ∧ 1 ≤ r.2.1.length) ∧
    (∀ r : RawResult, RAWParser.parse data = .ok r →
      r.two_thetas.length = r.intensities.length ∧ 1 ≤ r.intensities.length) := by
  refine ⟨?_, ?_, ?_, ?_, ?_⟩
  · intro p h
    unfold DATParser.parse at h
    exact unzip_ok _ h
  · intro p h
    unfold ASCParser.parse at h
    exact unzip_ok _ h
  · intro p h
    unfold TXTParser.parse at h
    exact unzip_ok _ h
  · intro r h
    rw [XRDMLParser.parse] at h
    split at h
    · cases h
    · split at h
      · cases h
      · exact xrdml_finish_ok h
  · intro r h
    rw [RAWParser.parse] at h
    split at h
    · cases h
    · split at h
      · cases h
      · exact finishRaw_ok h
/-- A float32 payload entry as its 4 little-endian bytes. -/
def groupBytes (g : ℕ × ℕ × ℕ × ℕ) : List ℕ := [g.1, g.2.1, g.2.2.1, g.2.2.2]

/-- The decoded value of a float32 payload entry. -/
def groupVal (g : ℕ × ℕ × ℕ × ℕ) : Option ℚ := decodeF32 g.1 g.2.1 g.2.2.1 g.2.2.2

/-- A 32-bit count serialized as 4 little-endian bytes. -/
def countBytes (count : ℕ) : List ℕ :=
  [count % 256, count / 256 % 256, count / 65536 % 256, count / 16777216 % 256]

/-- The synthetic binary-recovery file of spec section 8: a 4-byte
little-endian unsigned count followed immediately by the float32 payload. -/
def rawCountFile (count : ℕ) (payload : List (ℕ × ℕ × ℕ × ℕ)) : List ℕ :=
  countBytes count ++ (payload.map groupBytes).flatten

theorem flattenGroups_length (payload : List (ℕ × ℕ × ℕ × ℕ)) :
    ((payload.map groupBytes).flatten).length = 4 * payload.length := by
  induction payload with
  | nil => rfl
  | cons g t ih =>
    simp only [List.map_cons, List.flatten_cons, List.length_append, ih,
      List.length_cons]
    simp [groupBytes]
    omega

theorem decodeF32List_flattenGroups (payload : List (ℕ × ℕ × ℕ × ℕ)) :
    decodeF32List ((payload.map groupBytes).flatten) = payload.map groupVal := by
  induction payload with
  | nil => rfl
  | cons g t ih =>
    obtain ⟨a, b, c, d⟩ := g
    simp only [List.map_cons, List.flatten_cons]
    show decodeF32List (a :: b :: c :: d :: (t.map groupBytes).flatten) = _
    rw [decodeF32List, ih]
    rfl

theorem readU32_rawCountFile (count : ℕ) (payload : List (ℕ × ℕ × ℕ × ℕ))
    (hup : count ≤ 100000) :
    readU32 (rawCountFile count payload) 0 = some count := by
  show readU32 (countBytes count ++ (payload.map groupBytes).flatten) 0 = _
  rw [countBytes]
  show some (count % 256 + 256 * (count / 256 % 256) + 65536 * (count / 65536 % 256)
    + 16777216 * (count / 16777216 % 256)) = some count
  congr 1
  omega

theorem rawCountFile_length (count : ℕ) (payload : List (ℕ × ℕ × ℕ × ℕ))
    (hlen : payload.length = count) :
    (rawCountFile count payload).length = 4 + count * 4 := by
  rw [rawCountFile, List.length_append, flattenGroups_length, hlen]
  show 4 + 4 * count = 4 + count * 4
  ring

theorem rawMethod1Test_countFile (count : ℕ) (payload : List (ℕ × ℕ × ℕ × ℕ))
    (h100 : 100 ≤ count) (hup : count ≤ 100000) (hlen : payload.length = count) :
    rawMethod1Test (rawCountFile count payload) (4 + count * 4) 0 =
      some (count, 4) := by
  unfold rawMethod1Test
  rw [readU32_rawCountFile count payload hup]
  dsimp only
  rw [if_pos ⟨h100, hup⟩, if_pos (by omega)]

theorem rawMethod1_countFile (count : ℕ) (payload : List (ℕ × ℕ × ℕ × ℕ))
    (h100 : 100 ≤ count) (hup : count ≤ 100000) (hlen : payload.length = count) :
    rawMethod1 (rawCountFile count payload) (4 + count * 4) = some (count, 4) := by
  unfold rawMethod1
  have hk : (min 10000 (4 + count * 4 - 4) + 3) / 4 = (min 10000 (count * 4) + 3) / 4 := by
    omega
  have hkpos : 0 < (min 10000 (4 + count * 4 - 4) + 3) / 4 := by omega
  rw [rawScanOffsets]
  obtain ⟨k, hk2⟩ : ∃ k, (min 10000 (4 + count * 4 - 4) + 3) / 4 = k + 1 :=
    ⟨_, (Nat.succ_pred_eq_of_pos hkpos).symm⟩
  rw [hk2, List.range_succ_eq_map, List.map_cons, List.findSome?_cons,
    Nat.mul_zero, rawMethod1Test_countFile count payload h100 hup hlen]

theorem rawLayout_countFile (count : ℕ) (payload : List (ℕ × ℕ × ℕ × ℕ))
    (h100 : 100 ≤ count) (hup : count ≤ 100000) (hlen : payload.length = count) :
    rawLayout (rawCountFile count payload) (4 + count * 4) =
      .ok (4, count, 5, none, 1 / 50) := by
  unfold rawLayout
  rw [rawMethod1_countFile count payload h100 hup hlen]

/-- Parsing the synthetic count-plus-payload file always takes the
method-1 layout `(offset 4, the written count)` and reduces to filtering the
decoded payload. -/
theorem rawParse_countFile_core (count : ℕ) (payload : List (ℕ × ℕ × ℕ × ℕ))
    (h100 : 100 ≤ count) (hup : count ≤ 100000) (hlen : payload.length = count) :
    RAWParser.parse (rawCountFile count payload) =
      finishRaw 4 5 none (1 / 50) (rawFilterValues (payload.map groupVal)) := by
  rw [RAWParser.parse]
  rw [rawCountFile_length count payload hlen,
    rawLayout_countFile count payload h100 hup hlen]
  dsimp only
  rw [if_neg (by omega)]
  have hslice : sliceBytes (rawCountFile count payload) 4 (count * 4) =
      (payload.map groupBytes).flatten := by
    have hdrop : (countBytes count ++ (payload.map groupBytes).flatten).drop 4 =
        (payload.map groupBytes).flatten := List.drop_left (countBytes count) _
    rw [rawCountFile, sliceBytes, hdrop]
    exact List.take_of_length_le (by rw [flattenGroups_length, hlen]; omega)
  rw [hslice, decodeF32List_flattenGroups]

theorem rawFilterValues_all_valid {l : List (Option ℚ)} (hne : l ≠ [])
    (hall : l.all isValidF32 = true) : rawFilterValues l = l := by
  unfold rawFilterValues
  have hany : l.any isValidF32 = true := by
    cases l with
    | nil => exact absurd rfl hne
    | cons x t =>
      rw [List.all_cons, Bool.and_eq_true] at hall
      rw [List.any_cons, hall.1, Bool.true_or]
  rw [hany, hall]
  rfl

theorem finishRaw_default (doff : ℕ) (ints : List (Option ℚ))
    (hn : ints.length ≠ 0)
    (hcap : 5 + ((ints.length : ℚ) - 1) * (1 / 50) ≤ 120) :
    finishRaw doff 5 none (1 / 50) ints =
      .ok { two_thetas :=
              linspace 5 (5 + ((ints.length : ℚ) - 1) * (1 / 50)) ints.length
            intensities := ints
            data_count := ints.length
            data_offset := doff
            start_angle := 5
            end_angle := 5 + ((ints.length : ℚ) - 1) * (1 / 50)
            step := 1 / 50 } := by
  unfold finishRaw
  rw [if_neg hn]
  have hre : rawResolveEnd 5 none (1 / 50) ints.length =
      (5 + ((ints.length : ℚ) - 1) * (1 / 50), 1 / 50) := by
    unfold rawResolveEnd
    rw [if_neg (by norm_num)]
    dsimp only
    rw [if_neg (by
      intro hcon
      exact absurd hcon.1 (not_lt.mpr hcap))]
    rw [qmin, if_pos hcap]
  rw [hre]

/-- C5 (amended): for a file that is a 4-byte little-endian count of 500
followed immediately by 500 little-endian float32 values, each finite and
below 1e10, the RAW parser recovers the layout (data offset 4, count 500)
and returns a spectrum of length 500 whose intensities are exactly the
decoded written values.  (Without the finiteness/magnitude proviso the
value filter of lines 390-397 can shrink the array, see the
counterexample.) -/
theorem c5_raw_count500_recovery (payload : List (ℕ × ℕ × ℕ × ℕ))
    (hlen : payload.length = 500)
    (hvalid : List.Forall (fun g => isValidF32 (groupVal g) = true) payload) :
    RAWParser.parse (rawCountFile 500 payload) =
      .ok { two_thetas := linspace 5 (749 / 50) 500
            intensities := payload.map groupVal
            data_count := 500
            data_offset := 4
            start_angle := 5
            end_angle := 749 / 50
            step := 1 / 50 } := by
  rw [rawParse_countFile_core 500 payload (by norm_num) (by norm_num) hlen]
  have hmaplen : (payload.map groupVal).length = 500 := by
    rw [List.length_map, hlen]
  have hne : payload.map groupVal ≠ [] := by
    intro h
    have hc := congrArg List.length h
    rw [hmaplen] at hc
    simp at hc
  have hall : (payload.map groupVal).all isValidF32 = true := by
    rw [List.all_eq_true]
    intro x hx
    rw [List.mem_map] at hx
    obtain ⟨g, hg, rfl⟩ := hx
    exact (List.forall_iff_forall_mem.mp hvalid) g hg
  rw [rawFilterValues_all_valid hne hall]
  rw [finishRaw_default 4 (payload.map groupVal) (by rw [hmaplen]; norm_num)
    (by rw [hmaplen]; norm_num)]
  rw [hmaplen]
  norm_num

/-- Witness for C5: the all-ones payload, 500 copies of float32 1.0. -/
theorem c5_witness :
    RAWParser.parse (rawCountFile 500 (List.replicate 500 (0, 0, 128, 63))) =
      .ok { two_thetas := linspace 5 (749 / 50) 500
            intensities := (List.replicate 500 ((0 : ℕ), 0, 128, 63)).map groupVal
            data_count := 500
            data_offset := 4
            start_angle := 5
            end_angle := 749 / 50
            step := 1 / 50 } :=
  c5_raw_count500_recovery _ (List.length_replicate 500 _) (by
    rw [List.forall_iff_forall_mem]
    intro g hg
    rw [List.mem_replicate] at hg
    rw [hg.2]
    rw [show groupVal (0, 0, 128, 63) = some 1 by norm_num [groupVal, decodeF32]]
    rw [show isValidF32 (some (1 : ℚ)) = decide ((1 : ℚ) < 10 ^ 10) from rfl]
    rw [decide_eq_true (by norm_num : (1 : ℚ) < 10 ^ 10)])

/-- The counterexample payload: float32 1.0 followed by 499 copies of
float32 2^35 (finite, but at or above the 1e10 filter bound). -/
def cexPayload : List (ℕ × ℕ × ℕ × ℕ) :=
  (0, 0, 128, 63) :: List.replicate 499 (0, 0, 0, 81)

theorem filter_replicate_invalid {x : Option ℚ} (hx : isValidF32 x = false) :
    ∀ n : ℕ, List.filter isValidF32 (List.replicate n x) = []
  | 0 => rfl
  | n + 1 => by
    rw [List.replicate_succ, List.filter_cons, hx]
    exact filter_replicate_invalid hx n

/-- C5 counterexample: a file of the exact claimed shape — count 500
followed by 500 float32 values (one 1.0 and 499 copies of 2^35, all finite
float32 numbers) — parses to a spectrum of length 1, not 500: the parser
drops values at or above 1e10 (file_parser.py lines 390-397), so the claim
as stated fails for payloads containing such values. -/
theorem c5_counterexample :
    (RAWParser.parse (rawCountFile 500 cexPayload)).map
        (fun r => r.intensities.length) = Except.ok 1 ∧ (1 : ℕ) ≠ 500 := by
  refine ⟨?_, by norm_num⟩
  rw [rawParse_countFile_core 500 cexPayload (by norm_num) (by norm_num)
    (by rw [cexPayload, List.length_cons, List.length_replicate])]
  have hv1 : isValidF32 (some (1 : ℚ)) = true := by
    rw [show isValidF32 (some (1 : ℚ)) = decide ((1 : ℚ) < 10 ^ 10) from rfl]
    exact decide_eq_true (by norm_num)
  have hv2 : isValidF32 (some ((2 : ℚ) ^ 35)) = false := by
    rw [show isValidF32 (some ((2 : ℚ) ^ 35)) =
      decide ((2 : ℚ) ^ 35 < 10 ^ 10) from rfl]
    exact decide_eq_false (by norm_num)
  have hmap : cexPayload.map groupVal =
      some 1 :: List.replicate 499 (some ((2 : ℚ) ^ 35)) := by
    rw [cexPayload, List.map_cons, List.map_replicate]
    congr 1
    · norm_num [groupVal, decodeF32]
    · congr 1
      norm_num [groupVal, decodeF32]
  rw [hmap]
  have hfv : rawFilterValues
      (some 1 :: List.replicate 499 (some ((2 : ℚ) ^ 35))) = [some 1] := by
    unfold rawFilterValues
    have hany : (some (1:ℚ) :: List.replicate 499 (some ((2 : ℚ) ^ 35))).any
        isValidF32 = true := by
      rw [List.any_cons, hv1, Bool.true_or]
    have hallne : ¬ ((some (1:ℚ) :: List.replicate 499 (some ((2 : ℚ) ^ 35))).all
        isValidF32 = true) := by
      rw [List.all_eq_true]
      intro h
      have h2 := h (some ((2 : ℚ) ^ 35)) (List.mem_cons_of_mem _ (by
        rw [List.mem_replicate]
        exact ⟨by norm_num, rfl⟩))
      rw [hv2] at h2
      exact Bool.false_ne_true h2
    rw [hany, if_pos rfl, if_neg hallne]
    rw [List.filter_cons, hv1, if_pos rfl]
    rw [filter_replicate_invalid hv2 499]
  rw [hfv]
  rw [finishRaw_default 4 [some 1] (by norm_num) (by norm_num)]
  rfl

/-- Witness for C4: concrete successful parses for all five parsers — a
two-column text line for the three delimited-text parsers, a one-point
document for the XRDML parser, and a 100-value synthetic count file for the
RAW parser — each yielding equal-length arrays of length at least 1. -/
theorem c4_witness :
    (DATParser.parse (fun _ => some 1) [['1', ' ', '2']] = .ok ([1], [1]) ∧
      ([1] : List ℚ).length = ([1] : List ℚ).length ∧
      1 ≤ ([1] : List ℚ).length) ∧
    (ASCParser.parse (fun _ => some 1) [['1', ' ', '2']] = .ok ([1], [1])) ∧
    (TXTParser.parse (fun _ => some 1) [['1', ' ', '2']] = .ok ([1], [1])) ∧
    (XRDMLParser.parse (fun _ => some 1)
        ⟨false, none, [some ['1']], [some ['2']], [], []⟩ =
      .ok (none, [1], [1]) ∧
      ([1] : List ℚ).length = ([1] : List ℚ).length) ∧
    (RAWParser.parse (rawCountFile 100 (List.replicate 100 (0, 0, 128, 63))) =
      .ok { two_thetas := linspace 5 (349 / 50) 100
            intensities := List.replicate 100 (some 1)
            data_count := 100
            data_offset := 4
            start_angle := 5
            end_angle := 349 / 50
            step := 1 / 50 } ∧
      (linspace 5 (349 / 50) 100).length =
        (List.replicate 100 (some (1 : ℚ))).length ∧
      1 ≤ (List.replicate 100 (some (1 : ℚ))).length) := by
  have hdat : DATParser.parse (fun _ => some 1) [['1', ' ', '2']] =
      .ok ([1], [1]) := by with_unfolding_all rfl
  have hasc : ASCParser.parse (fun _ => some 1) [['1', ' ', '2']] =
      .ok ([1], [1]) := by with_unfolding_all rfl
  have htxt : TXTParser.parse (fun _ => some 1) [['1', ' ', '2']] =
      .ok ([1], [1]) := by with_unfolding_all rfl
  have hxr : XRDMLParser.parse (fun _ => some 1)
      ⟨false, none, [some ['1']], [some ['2']], [], []⟩ =
      .ok (none, [1], [1]) := by with_unfolding_all rfl
  have hraw : RAWParser.parse
      (rawCountFile 100 (List.replicate 100 (0, 0, 128, 63))) =
      .ok { two_thetas := linspace 5 (349 / 50) 100
            intensities := List.replicate 100 (some 1)
            data_count := 100
            data_offset := 4
            start_angle := 5
            end_angle := 349 / 50
            step := 1 / 50 } := by
    rw [rawParse_countFile_core 100 _ (by norm_num) (by norm_num)
      (List.length_replicate 100 _)]
    rw [List.map_replicate]
    rw [show groupVal (0, 0, 128, 63) = some 1 by norm_num [groupVal, decodeF32]]
    rw [rawFilterValues_all_valid (by simp) (by
      rw [List.all_eq_true]
      intro x hx
      rw [List.mem_replicate] at hx
      rw [hx.2]
      rw [show isValidF32 (some (1 : ℚ)) = decide ((1 : ℚ) < 10 ^ 10) from rfl]
      exact decide_eq_true (by norm_num))]
    rw [finishRaw_default 4 _ (by simp) (by rw [List.length_replicate]; norm_num)]
    rw [List.length_replicate]
    norm_num
  have h4 := c4_parsers_equal_length_nonempty_or_fail (fun _ => some 1)
    [['1', ' ', '2']] ⟨false, none, [some ['1']], [some ['2']], [], []⟩
    (rawCountFile 100 (List.replicate 100 (0, 0, 128, 63)))
  refine ⟨⟨hdat, h4.1 ([1], [1]) hdat⟩, hasc, htxt,
    ⟨hxr, (h4.2.2.2.1 (none, [1], [1]) hxr).1⟩, ⟨hraw, ?_⟩⟩
  exact h4.2.2.2.2 _ hraw
